import Mathlib

/-!
Verification of the SecKC-MHN-Globe sphere rendering engine
(`SecKC-MHN-Globe.go`).  The Go source is shallowly embedded below:
float64 arithmetic is modelled by `ℝ`, Go `int` by `ℤ`, mutable
2-dimensional arrays by function grids `ℤ → ℤ → α` (materialised into
`List (List Char)` where the code returns a grid), and `time.Time` /
`time.Duration` instants by integer millisecond counts.  Each definition
mirrors one Go function and is named after it.
-/

namespace MHNGlobe

open Real

/-- Go's conversion `int(x)` from float64: truncation toward zero. -/
noncomputable def goTrunc (x : ℝ) : ℤ := if 0 ≤ x then ⌊x⌋ else ⌈x⌉

/-- Go's `math.Mod(x, y)`: the remainder `x - y*trunc(x/y)`, whose sign
follows `x`. -/
noncomputable def goMod (x y : ℝ) : ℝ := x - y * (goTrunc (x / y) : ℝ)

/-- Go's `math.Atan2(y, x)`: quadrant-aware arctangent, zero at the
origin (`Atan2(+0,+0) = +0`). -/
noncomputable def goAtan2 (y x : ℝ) : ℝ :=
  if 0 < x then arctan (y / x)
  else if x < 0 then (if 0 ≤ y then arctan (y / x) + π else arctan (y / x) - π)
  else if 0 < y then π / 2
  else if y < 0 then -(π / 2)
  else 0

/-- The Go loop `for lon < -180 { lon += 360 }` (lines 2546-2548). -/
noncomputable def wrapLow (x : ℝ) : ℝ :=
  if h : x < -180 then wrapLow (x + 360) else x
termination_by (⌈(-180 - x) / 360⌉).toNat
decreasing_by
  have h1 : (0:ℝ) < -180 - x := by linarith
  have h2 : ⌈(-180 - (x + 360)) / 360⌉ = ⌈(-180 - x) / 360⌉ - 1 := by
    have : (-180 - (x + 360)) / 360 = (-180 - x) / 360 - 1 := by ring
    rw [this, Int.ceil_sub_one]
  have h3 : 0 < ⌈(-180 - x) / 360⌉ := by
    rw [Int.ceil_pos]; positivity
  omega

/-- The Go loop `for lon > 180 { lon -= 360 }` (lines 2549-2551). -/
noncomputable def wrapHigh (x : ℝ) : ℝ :=
  if h : 180 < x then wrapHigh (x - 360) else x
termination_by (⌈(x - 180) / 360⌉).toNat
decreasing_by
  have h1 : (0:ℝ) < x - 180 := by linarith
  have h2 : ⌈(x - 360 - 180) / 360⌉ = ⌈(x - 180) / 360⌉ - 1 := by
    have : (x - 360 - 180) / 360 = (x - 180) / 360 - 1 := by ring
    rw [this, Int.ceil_sub_one]
  have h3 : 0 < ⌈(x - 180) / 360⌉ := by
    rw [Int.ceil_pos]; positivity
  omega

/-- The longitude normalisation in the density pass (lines 2546-2551):
first the `< -180` loop, then the `> 180` loop. -/
noncomputable def lonWrap (x : ℝ) : ℝ := wrapHigh (wrapLow x)

/-- `Charset` (line 2102). -/
inductive Charset where
  | ascii : Charset
  | blocks : Charset
  | braille : Charset
deriving DecidableEq

/-- `densityToBraille` (lines 2121-2148). -/
noncomputable def densityToBraille (density : ℝ) : Char :=
  if density > 1.0 then '⣿'
  else if density > 0.9 then '⣾'
  else if density > 0.8 then '⣶'
  else if density > 0.7 then '⣦'
  else if density > 0.6 then '⣤'
  else if density > 0.5 then '⣀'
  else if density > 0.4 then '⡀'
  else if density > 0.3 then '⠄'
  else if density > 0.2 then '⠂'
  else if density > 0.15 then '⠁'
  else if density > 0.1 then '⠀'
  else ' '

/-- `densityToBlock` (lines 2150-2170). -/
noncomputable def densityToBlock (density : ℝ) : Char :=
  if density > 1.0 then '█'
  else if density > 0.875 then '▓'
  else if density > 0.75 then '▒'
  else if density > 0.625 then '░'
  else if density > 0.5 then '▄'
  else if density > 0.375 then '▃'
  else if density > 0.25 then '▂'
  else if density > 0.125 then '▁'
  else ' '

/-- `densityToASCII` (lines 2172-2194). -/
noncomputable def densityToASCII (density : ℝ) : Char :=
  if density > 1.0 then '@'
  else if density > 0.8 then '#'
  else if density > 0.6 then '%'
  else if density > 0.4 then 'o'
  else if density > 0.3 then '='
  else if density > 0.2 then '+'
  else if density > 0.15 then '-'
  else if density > 0.1 then '.'
  else if density > 0.05 then '`'
  else ' '

/-- `densityToChar` (lines 2110-2119). -/
noncomputable def densityToChar (density : ℝ) (charset : Charset) : Char :=
  match charset with
  | Charset.braille => densityToBraille density
  | Charset.blocks => densityToBlock density
  | Charset.ascii => densityToASCII density

/-- The glyphs of each palette listed from lightest to heaviest, in the
order of the threshold ladder of the corresponding `densityTo…`
function. -/
def paletteGlyphs (charset : Charset) : List Char :=
  match charset with
  | Charset.ascii => [' ', '`', '.', '-', '+', '=', 'o', '%', '#', '@']
  | Charset.blocks => [' ', '▁', '▂', '▃', '▄', '░', '▒', '▓', '█']
  | Charset.braille => [' ', '⠀', '⠁', '⠂', '⠄', '⡀', '⣀', '⣤', '⣦', '⣶', '⣾', '⣿']

/-- Visual weight of a glyph: its position in the palette's ladder. -/
def charWeight (charset : Charset) (c : Char) : ℕ :=
  List.indexOf c (paletteGlyphs charset)

/-- The maximum-weight glyph of each palette, as named by the claim
(`'@'`, `'█'`, `'⣿'`). -/
def maxGlyph (charset : Charset) : Char :=
  match charset with
  | Charset.ascii => '@'
  | Charset.blocks => '█'
  | Charset.braille => '⣿'

/-- `getProtocolGlyph` (lines 2652-2667); protocol strings are matched
already lower-cased. -/
def getProtocolGlyph (protocol : String) : Char :=
  if protocol = "ssh" then '#'
  else if protocol = "telnet" then '~'
  else if protocol = "smtp" then '@'
  else if protocol = "http" ∨ protocol = "https" then ':'
  else if protocol = "ftp" then '%'
  else '!'

/-- `getEarthBitmap` (lines 4635-4698): the 120x60 equirectangular
land/ocean raster returned by the source, row for row. -/
def getEarthBitmap : List String :=
  [
   "                                                                                                                        ",
   "                                                                                                                        ",
   "                                                                                                                        ",
   "                             # ####### #################                                    #                           ",
   "                       #    #   ### #################            ###                                                    ",
   "                      ###  ## ####       ############ #                        ##         ########        #####         ",
   "                  ## ###   #  ### ##      ###########                         #    #### ################   ###          ",
   "      ######## ###### #### # #  #  ###     #########              #######        # ## ##################################",
   " ### ###########################    ####   #####      #          ####### ###############################################",
   "      ########################       ##    ####                #### ####################################################",
   "      ### # #################      ##        #                ##### # ##########################################  ##    ",
   "                ##############     #####                   #     #  #######################################      ##     ",
   "                 ################ #######                # #   ###########################################      ##      ",
   "                  ########################                 ################################################             ",
   "                    ###################  ##                ################################################             ",
   "                   ################### #                    ##########  ####  ############################              ",
   "                   ##################                    ##### ##  ###    ### ##########################                ",
   "                   #################                     ###       # ######## ######################  #    #            ",
   "                    ###############                       #  ###       ##############################  #  #             ",
   "                     #############                        ######        #############################                   ",
   "                       ######## #                        ############################################                   ",
   "                      # ####     #                      ##################### #######################                   ",
   "                       # ###      #                    ################# ######    #################                    ",
   "                         ###  #   #                    ################## ######     ####  #####                        ",
   "                          #####   # #                  ################## #####      ###    ####                        ",
   "                             ####                      ################### ###       ##      ####   #                   ",
   "                               #    #                  ####################           #      # ##                       ",
   "                                #  #####                #####################         #      # #     ##                 ",
   "                                   ######                #### ###############          #      #    #                    ",
   "                                   ########                     ############                 ##   ##                    ",
   "                                  #########                     ###########                   #  ####                   ",
   "                                  #############                 ##########                    ##### #     ##            ",
   "                                 ################                ########                                  ## #         ",
   "                                  ###############                #########                         ## #    # #          ",
   "                                   #############                 #########                                              ",
   "                                   ############                  #########  #                         # ##  #           ",
   "                                     ##########                 #########  ##                        ########           ",
   "                                     ##########                  #######   ##                      ###########     #    ",
   "                                     ########                    #######   #                      #############         ",
   "                                     #######                     ######                           ##############        ",
   "                                     #######                      #####                            #############        ",
   "                                     ######                       ####                             ###   ######         ",
   "                                    #####                                                                  ####       # ",
   "                                    #####                                                                              #",
   "                                    ###                                                                      #        # ",
   "                                    ###                                                                             ##  ",
   "                                    ##                                                                                  ",
   "                                   ##                                                                                   ",
   "                                    ##                                                                                  ",
   "                                                                                                                        ",
   "                                                                                                                        ",
   "                                                                                                                        ",
   "                                       #                                                                                ",
   "                                      #                                #  ##########   ########################         ",
   "                                   #####                 ########################## #################################   ",
   "                  # ## #   #############              #############################################################     ",
   "        ## #########################             ##################################################################     ",
   "           ######################## #  #  ##     #################################################################      ",
   "    ##################################################################################################################  ",
   "########################################################################################################################"
  ]

/-- `Globe` (lines 2336-2352).  Field `aspect` embeds `AspectRatio`. -/
structure Globe where
  radius : ℝ
  width : ℤ
  height : ℤ
  earthMap : List String
  mapW : ℤ
  mapH : ℤ
  aspect : ℝ
  charset : Charset
  lighting : Bool
  lightLon : ℝ
  lightLat : ℝ
  lightFollow : Bool
  zoom : ℝ
  nudgeX : ℝ
  nudgeY : ℝ

/-- `NewGlobe` (lines 2354-2388). -/
noncomputable def NewGlobe (width height : ℤ) (aspect : ℝ) (charset : Charset) : Globe :=
  let width := if width < 1 then 1 else width
  let height := if height < 1 then 1 else height
  let effectiveHeight := (height : ℝ) * aspect
  let radius := min ((width : ℝ) / 2.5) (effectiveHeight / 2.5)
  let radius := if radius < 1.0 then 1.0 else radius
  let earthMap := getEarthBitmap
  { radius := radius
    width := width
    height := height
    earthMap := earthMap
    mapW := ((earthMap.headD "").length : ℤ)
    mapH := (earthMap.length : ℤ)
    aspect := aspect
    charset := charset
    lighting := false
    lightLon := 0
    lightLat := 0
    lightFollow := false
    zoom := 1.0
    nudgeX := 0
    nudgeY := 0 }

/-- The two-sided index clamp of `Globe.sampleEarthAt`
(lines 2397-2408): first `if v < 0 { v = 0 }`, then
`if v >= n { v = n - 1 }`. -/
def clampIdx (v n : ℤ) : ℤ :=
  if (if v < 0 then 0 else v) ≥ n then n - 1 else (if v < 0 then 0 else v)

lemma clampIdx_bounds (v n : ℤ) (hn : 0 < n) : 0 ≤ clampIdx v n ∧ clampIdx v n < n := by
  rw [clampIdx]
  split_ifs <;> omega

/-- `Globe.sampleEarthAt` (lines 2390-2411): normalise latitude and
longitude into raster indices, clamp, and look the character up. -/
noncomputable def sampleEarthAt (g : Globe) (lat lon : ℝ) : Char :=
  ((g.earthMap.getD
      (clampIdx (goTrunc ((lat + 90) / 180 * ((g.mapH - 1 : ℤ) : ℝ))) g.mapH).toNat
      "").toList).getD
    (clampIdx (goTrunc ((lon + 180) / 360 * ((g.mapW - 1 : ℤ) : ℝ))) g.mapW).toNat ' '

/-- The `switch earthChar` base-density table of the density pass
(lines 2555-2563): `'#' → 1.0`, `'.' → 0.6`, any other character that
reaches the switch → `0.8`. -/
noncomputable def terrainBaseDensity (c : Char) : ℝ :=
  if c = '#' then 1.0 else if c = '.' then 0.6 else 0.8

/-- The density contribution factor of a sampled character: the guard
`earthChar != ' '` (line 2554) skips spaces entirely (weight 0), any
other character contributes `terrainBaseDensity` (lines 2554-2567). -/
noncomputable def sampledWeight (c : Char) : ℝ :=
  if c = ' ' then 0 else terrainBaseDensity c

/-- The longitude adjustment of `project3DTo2D` (lines 2414-2415):
`adjustedLon = -lon + 90` folded into `[-180, 180)` via `math.Mod`. -/
noncomputable def adjustedLonOf (lon : ℝ) : ℝ := goMod ((-lon + 90) + 180) 360 - 180

/-- `latRad` (line 2416). -/
noncomputable def latRadOf (lat : ℝ) : ℝ := lat * π / 180

/-- `lonRad` (line 2417). -/
noncomputable def lonRadOf (lon rotation : ℝ) : ℝ :=
  (adjustedLonOf lon + rotation * 180 / π) * π / 180

/-- View-space `x` of `project3DTo2D` (line 2419). -/
noncomputable def sphX (lat lon rotation : ℝ) : ℝ :=
  cos (latRadOf lat) * cos (lonRadOf lon rotation)

/-- View-space `y` of `project3DTo2D` (line 2420). -/
noncomputable def sphY (lat : ℝ) : ℝ := sin (latRadOf lat)

/-- View-space depth `z` of `project3DTo2D` (line 2421). -/
noncomputable def depthZ (lat lon rotation : ℝ) : ℝ :=
  cos (latRadOf lat) * sin (lonRadOf lon rotation)

/-- The truncated screen abscissa `screenX` of `Globe.project3DTo2D`
(line 2429).  Go `int` division truncates toward zero, hence
`Int.tdiv` for `g.Width/2`. -/
noncomputable def screenXOf (g : Globe) (lat lon rotation : ℝ) : ℤ :=
  goTrunc (sphX lat lon rotation * (g.radius * g.zoom) + g.nudgeX) + Int.tdiv g.width 2

/-- The truncated screen ordinate `screenY` of `Globe.project3DTo2D`
(line 2430). -/
noncomputable def screenYOf (g : Globe) (lat : ℝ) : ℤ :=
  goTrunc (-(sphY lat) * (g.radius * g.zoom) / g.aspect + g.nudgeY) + Int.tdiv g.height 2

/-- `Globe.project3DTo2D` (lines 2413-2437). -/
noncomputable def project3DTo2D (g : Globe) (lat lon rotation : ℝ) : ℤ × ℤ × Bool :=
  if depthZ lat lon rotation < 0 then (0, 0, false)
  else if screenXOf g lat lon rotation < 0 ∨ screenXOf g lat lon rotation ≥ g.width ∨
      screenYOf g lat < 0 ∨ screenYOf g lat ≥ g.height then (0, 0, false)
  else (screenXOf g lat lon rotation, screenYOf g lat, true)

/-- The exact (pre-truncation) screen abscissa of `project3DTo2D`:
line 2429 without the `int(...)` conversion. -/
noncomputable def projectXReal (g : Globe) (lat lon rotation : ℝ) : ℝ :=
  sphX lat lon rotation * (g.radius * g.zoom) + g.nudgeX + ((Int.tdiv g.width 2 : ℤ) : ℝ)

/-- The exact (pre-truncation) screen ordinate of `project3DTo2D`:
line 2430 without the `int(...)` conversion. -/
noncomputable def projectYReal (g : Globe) (lat lon rotation : ℝ) : ℝ :=
  -(sphY lat) * (g.radius * g.zoom) / g.aspect + g.nudgeY + ((Int.tdiv g.height 2 : ℤ) : ℝ)

/-- The Lambertian part of `Globe.calculateLighting` (lines 2455-2477):
surface normal at the point, light direction from the given light
longitude/latitude, `max(0.2, dot)`. -/
noncomputable def lambertIntensity (lat lon rotation lightLon lightLat : ℝ) : ℝ :=
  let nx := cos (latRadOf lat) * cos (lonRadOf lon rotation)
  let ny := sin (latRadOf lat)
  let nz := cos (latRadOf lat) * sin (lonRadOf lon rotation)
  let lightLatRad := lightLat * π / 180
  let lightLonRad := lightLon * π / 180
  let lx := cos lightLatRad * cos lightLonRad
  let ly := sin lightLatRad
  let lz := cos lightLatRad * sin lightLonRad
  max 0.2 (nx * lx + ny * ly + nz * lz)

/-- `Globe.calculateLighting` (lines 2439-2478). -/
noncomputable def calculateLighting (g : Globe) (lat lon rotation : ℝ) : ℝ :=
  if g.lighting = false then 1.0
  else if g.lightFollow then
    lambertIntensity lat lon rotation (-(rotation * 180 / π)) 23.5
  else
    lambertIntensity lat lon rotation g.lightLon g.lightLat

/-- `centerX` of the density pass (line 2526). -/
def centerX (g : Globe) : ℤ := Int.tdiv g.width 2

/-- `centerY` of the density pass (line 2526). -/
def centerY (g : Globe) : ℤ := Int.tdiv g.height 2

/-- `dx` of the density pass (line 2531), for a real-valued screen
abscissa. -/
noncomputable def cellDX (g : Globe) (xr : ℝ) : ℝ := (xr - (centerX g : ℝ)) - g.nudgeX

/-- `dy` of the density pass (line 2532). -/
noncomputable def cellDY (g : Globe) (yr : ℝ) : ℝ := ((yr - (centerY g : ℝ)) - g.nudgeY) * g.aspect

/-- `distance` of the density pass (line 2533). -/
noncomputable def cellDistance (g : Globe) (xr yr : ℝ) : ℝ :=
  sqrt (cellDX g xr * cellDX g xr + cellDY g yr * cellDY g yr)

/-- The inverse projection of the density pass (lines 2535-2551): from a
screen position to the latitude/longitude sampled there, `none` when the
cell lies outside the sphere. -/
noncomputable def densityPassInverseR (g : Globe) (rotation : ℝ) (xr yr : ℝ) :
    Option (ℝ × ℝ) :=
  let effectiveRadius := g.radius * g.zoom
  if cellDistance g xr yr ≤ effectiveRadius then
    let nx := cellDX g xr / effectiveRadius
    let ny := cellDY g yr / effectiveRadius
    let nzsq := 1 - nx * nx - ny * ny
    if 0 ≤ nzsq then
      let nz := sqrt nzsq
      let lat := arcsin ny * 180 / π
      let lon := lonWrap (goAtan2 nx nz * 180 / π + rotation * 180 / π)
      some (lat, lon)
    else none
  else none

/-- The border-ring test of the density pass (line 2582). -/
noncomputable def borderCond (g : Globe) (xr yr : ℝ) : Prop :=
  g.radius * g.zoom - 0.5 < cellDistance g xr yr ∧
    cellDistance g xr yr < g.radius * g.zoom + 0.5


/-- A mutable Go 2-d array, embedded as a function grid indexed
`grid y x`. -/
def Grid (α : Type) : Type := ℤ → ℤ → α

/-- Write one cell of a grid. -/
def upd {α : Type} (grid : Grid α) (y x : ℤ) (v : α) : Grid α :=
  fun y' x' => if y' = y ∧ x' = x then v else grid y' x'

/-- `density[y][x] += v` (lines 2567, 2574, 2583). -/
def addAt (d : Grid ℝ) (y x : ℤ) (v : ℝ) : Grid ℝ := upd d y x (d y x + v)

/-- The offsets `-1, 0, 1` of the anti-aliasing loops (lines 2570-2571). -/
def bleedOffsets : List ℤ := [-1, 0, 1]

/-- The anti-aliasing bleed loop (lines 2569-2577): for every offset
pair `(dy, dx)` in `{-1,0,1}²`, add `0.05 * lightFactor` to the target
cell when it lies inside the grid. -/
def bleedLoop (g : Globe) (lightFactor : ℝ) (x y : ℤ) (d : Grid ℝ) : Grid ℝ :=
  bleedOffsets.foldl (fun d dy =>
    bleedOffsets.foldl (fun d dx =>
      let nx2 := x + dx
      let ny2 := y + dy
      if 0 ≤ nx2 ∧ nx2 < g.width ∧ 0 ≤ ny2 ∧ ny2 < g.height then
        addAt d ny2 nx2 (0.05 * lightFactor)
      else d) d) d

/-- One iteration of the density accumulation double loop
(lines 2531-2584) at screen cell `(x, y)`: terrain contribution with
anti-aliasing bleed, then the border ring. -/
noncomputable def accumulateCell (g : Globe) (rotation : ℝ) (x y : ℤ) (d : Grid ℝ) :
    Grid ℝ :=
  let d1 :=
    match densityPassInverseR g rotation (x : ℝ) (y : ℝ) with
    | some (lat, lon) =>
      let earthChar := sampleEarthAt g lat lon
      if earthChar ≠ ' ' then
        let lightFactor := calculateLighting g lat lon rotation
        bleedLoop g lightFactor x y
          (addAt d y x (terrainBaseDensity earthChar * lightFactor))
      else d
    | none => d
  if g.radius * g.zoom - 0.5 < cellDistance g (x : ℝ) (y : ℝ) ∧
      cellDistance g (x : ℝ) (y : ℝ) < g.radius * g.zoom + 0.5 then
    addAt d1 y x 0.2
  else d1

/-- The full density accumulation pass (lines 2521-2586), starting from
the all-zero grid. -/
noncomputable def densityGrid (g : Globe) (rotation : ℝ) : Grid ℝ :=
  (List.range g.height.toNat).foldl (fun d (y : ℕ) =>
    (List.range g.width.toNat).foldl (fun d (x : ℕ) =>
      accumulateCell g rotation (x : ℤ) (y : ℤ) d) d) (fun _ _ => 0)

/-- `AttackArc` (lines 2200-2208); `createdMs`/`ttlMs` are the creation
instant and time-to-live in integer milliseconds. -/
structure AttackArc where
  srcLat : ℝ
  srcLon : ℝ
  dstLat : ℝ
  dstLon : ℝ
  protocol : String
  createdMs : ℤ
  ttlMs : ℤ

/-- `bezierPoint` (lines 2269-2272). -/
noncomputable def bezierPoint (t p0 p1 p2 p3 : ℝ) : ℝ :=
  let u := 1 - t
  u * u * u * p0 + 3 * u * u * t * p1 + 3 * u * t * t * p2 + t * t * t * p3

/-- The sampled path point of `renderArc` at parameter `t`
(lines 2620-2639): cubic Bezier when the style is `"curved"`, linear
interpolation otherwise. -/
noncomputable def arcPathPoint (arc : AttackArc) (arcStyle : String) (t : ℝ) : ℝ × ℝ :=
  if arcStyle = "curved" then
    let midLat := (arc.srcLat + arc.dstLat) / 2
    let midLon := (arc.srcLon + arc.dstLon) / 2
    let heightFactor := 20.0
    let cp1Lat := arc.srcLat + (midLat - arc.srcLat) * 0.5 + heightFactor
    let cp1Lon := arc.srcLon + (midLon - arc.srcLon) * 0.5
    let cp2Lat := midLat + (arc.dstLat - midLat) * 0.5 + heightFactor
    let cp2Lon := midLon + (arc.dstLon - midLon) * 0.5
    (bezierPoint t arc.srcLat cp1Lat cp2Lat arc.dstLat,
     bezierPoint t arc.srcLon cp1Lon cp2Lon arc.dstLon)
  else
    (arc.srcLat + t * (arc.dstLat - arc.srcLat),
     arc.srcLon + t * (arc.dstLon - arc.srcLon))

/-- One iteration of the `renderArc` sampling loop (lines 2617-2649) for
step `i` of 30, given the arc's fade factor. -/
noncomputable def renderArcStep (g : Globe) (arc : AttackArc) (rotation : ℝ)
    (arcStyle : String) (fadeFactor : ℝ) (screen : Grid Char) (i : ℕ) : Grid Char :=
  let t := (i : ℝ) / 30
  let p := arcPathPoint arc arcStyle t
  let r := project3DTo2D g p.1 p.2 rotation
  if r.2.2 = true ∧ 0 ≤ r.1 ∧ r.1 < g.width ∧ 0 ≤ r.2.1 ∧ r.2.1 < g.height then
    let segmentFade := fadeFactor * (0.3 + 0.7 * t)
    if segmentFade > 0.3 ∧ screen r.2.1 r.1 = ' ' then upd screen r.2.1 r.1 '·'
    else screen
  else screen

/-- `Globe.renderArc` (lines 2609-2650), at wall-clock instant `nowMs`
(milliseconds); returns the updated screen grid. -/
noncomputable def renderArc (g : Globe) (arc : AttackArc) (rotation : ℝ)
    (screen : Grid Char) (arcStyle : String) (nowMs : ℤ) : Grid Char :=
  let fadeFactor := 1.0 - (((nowMs - arc.createdMs : ℤ) : ℝ) / ((arc.ttlMs : ℤ) : ℝ))
  if fadeFactor < 0 then screen
  else (List.range 31).foldl (renderArcStep g arc rotation arcStyle fadeFactor) screen

/-- `LocationInfo` (lines 1870-1879), restricted to the fields the
renderer reads. -/
structure LocationInfo where
  latitude : ℝ
  longitude : ℝ
  valid : Bool

/-- One iteration of the attack-location loop (lines 2506-2519) for one
map entry `(ip, loc)`.  `protocolForIP` stands for `getProtocolForIP`,
which reads the external dashboard state. -/
noncomputable def markerStep (g : Globe) (rotation : ℝ) (protocolGlyphs : Bool)
    (protocolForIP : String → String) (layer : Grid String) (entry : String × LocationInfo) :
    Grid String :=
  if entry.2.valid = true then
    let r := project3DTo2D g entry.2.latitude entry.2.longitude rotation
    if r.2.2 = true ∧ 0 ≤ r.1 ∧ r.1 < g.width ∧ 0 ≤ r.2.1 ∧ r.2.1 < g.height then
      let protocol := if protocolGlyphs then protocolForIP entry.1 else ""
      upd layer r.2.1 r.1 protocol
    else layer
  else layer

/-- The attack-layer pass of `render` (lines 2493-2519): the marker map
is embedded as an association list in iteration order. -/
noncomputable def markerPass (g : Globe) (rotation : ℝ) (protocolGlyphs : Bool)
    (protocolForIP : String → String) (attackLocations : List (String × LocationInfo)) :
    Grid String :=
  attackLocations.foldl (markerStep g rotation protocolGlyphs protocolForIP)
    (fun _ _ => "")

/-- The character written into `screen[y][x]` by the final pass
(lines 2589-2603): the density character, overlaid by the attack-layer
glyph when one is present. -/
noncomputable def finalCellWrite (charset : Charset) (protocolGlyphs : Bool)
    (density : Grid ℝ) (layer : Grid String) (screen : Grid Char) (y x : ℤ) : Grid Char :=
  let s1 := upd screen y x (densityToChar (density y x) charset)
  if layer y x ≠ "" then
    let protocol := layer y x
    if protocolGlyphs = true ∧ protocol ≠ "" then
      upd s1 y x (getProtocolGlyph protocol)
    else upd s1 y x '*'
  else s1

/-- The density-to-character / overlay double loop of `render`
(lines 2588-2604). -/
noncomputable def finalPass (g : Globe) (charset : Charset) (protocolGlyphs : Bool)
    (density : Grid ℝ) (layer : Grid String) (screen : Grid Char) : Grid Char :=
  (List.range g.height.toNat).foldl (fun s (y : ℕ) =>
    (List.range g.width.toNat).foldl (fun s (x : ℕ) =>
      finalCellWrite charset protocolGlyphs density layer s (y : ℤ) (x : ℤ)) s) screen

/-- The arc pass of `render` (lines 2498-2503). -/
noncomputable def arcPass (g : Globe) (rotation : ℝ) (arcs : List AttackArc)
    (arcStyle : String) (nowMs : ℤ) (screen : Grid Char) : Grid Char :=
  if arcStyle ≠ "off" ∧ 0 < arcs.length then
    arcs.foldl (fun s arc => renderArc g arc rotation s arcStyle nowMs) screen
  else screen

/-- Read the function grid back into the row-major `[][]rune` shape the
Go function returns. -/
def materialize (g : Globe) (screen : Grid Char) : List (List Char) :=
  (List.range g.height.toNat).map fun (y : ℕ) =>
    (List.range g.width.toNat).map fun (x : ℕ) => screen (y : ℤ) (x : ℤ)

/-- `Globe.render` (lines 2480-2607): guard for a degenerate viewport,
blank screen, arc pass, attack layer, density pass, final
character/overlay pass. -/
noncomputable def render (g : Globe) (rotation : ℝ)
    (attackLocations : List (String × LocationInfo)) (arcs : List AttackArc)
    (arcStyle : String) (protocolGlyphs : Bool) (protocolForIP : String → String)
    (nowMs : ℤ) : List (List Char) :=
  if g.width ≤ 0 ∨ g.height ≤ 0 then [[' ']]
  else
    let screen0 : Grid Char := fun _ _ => ' '
    let screen1 := arcPass g rotation arcs arcStyle nowMs screen0
    let layer := markerPass g rotation protocolGlyphs protocolForIP attackLocations
    let density := densityGrid g rotation
    materialize g (finalPass g g.charset protocolGlyphs density layer screen1)

/-- `ArcManager.CleanupExpired` (lines 2245-2257): rebuild the arc list
keeping the arcs whose age is still below their TTL, in order.  Times
are integer milliseconds. -/
def CleanupExpired (nowMs : ℤ) (arcs : List AttackArc) : List AttackArc :=
  arcs.foldl (fun validArcs arc =>
    if nowMs - arc.createdMs < arc.ttlMs then validArcs ++ [arc] else validArcs) []


/-- A concrete globe state used by witnesses: a 40x20 viewport with
cell aspect ratio 2, the radius 16 that `NewGlobe 40 20 2` computes,
default zoom/pan, lighting off, the real terrain raster. -/
noncomputable def testGlobe : Globe :=
  { radius := 16
    width := 40
    height := 20
    earthMap := getEarthBitmap
    mapW := 120
    mapH := 60
    aspect := 2
    charset := Charset.ascii
    lighting := false
    lightLon := 0
    lightLat := 0
    lightFollow := false
    zoom := 1
    nudgeX := 0
    nudgeY := 0 }

lemma foldl_fixed {α β : Type} (f : α → β → α) (l : List β) (a : α)
    (h : ∀ a' b, b ∈ l → f a' b = a') : l.foldl f a = a := by
  induction l generalizing a with
  | nil => rfl
  | cons b l ih =>
    rw [List.foldl_cons, h a b (List.mem_cons_self b l)]
    exact ih a fun a' b' hb' => h a' b' (List.mem_cons_of_mem b hb')

lemma foldl_append_filter {α : Type} (p : α → Prop) [DecidablePred p] (l : List α) :
    ∀ acc : List α,
      l.foldl (fun v a => if p a then v ++ [a] else v) acc =
        acc ++ l.filter (fun a => decide (p a)) := by
  induction l with
  | nil => intro acc; simp
  | cons a l ih =>
    intro acc
    rw [List.foldl_cons]
    by_cases h : p a
    · rw [if_pos h, ih, List.filter_cons_of_pos (by simpa using h)]
      simp
    · rw [if_neg h, ih, List.filter_cons_of_neg (by simpa using h)]

/-- Claim C9: if the globe's width or height is at most 0, `render`
returns the minimal single-cell blank frame `[[' ']]` for every
rotation, marker set and arc set. -/
theorem claim_C9 (g : Globe) (rotation : ℝ)
    (attackLocations : List (String × LocationInfo)) (arcs : List AttackArc)
    (arcStyle : String) (protocolGlyphs : Bool) (protocolForIP : String → String)
    (nowMs : ℤ) (h : g.width ≤ 0 ∨ g.height ≤ 0) :
    render g rotation attackLocations arcs arcStyle protocolGlyphs protocolForIP nowMs =
      [[' ']] := by
  rw [render, if_pos h]

/-- Witness for C9 at a globe of width 0. -/
theorem claim_C9_witness :
    render { testGlobe with width := 0 } 0 [] [] "curved" false (fun _ => "") 0 =
      [[' ']] :=
  claim_C9 { testGlobe with width := 0 } 0 [] [] "curved" false (fun _ => "") 0
    (Or.inl (by norm_num))

/-- Claim C10: `CleanupExpired` keeps exactly the arcs whose age is
strictly below their TTL, in their original relative order (the result
is the order-preserving filter, hence a sublist), and afterwards every
retained arc satisfies `age < TTL`. -/
theorem claim_C10 (nowMs : ℤ) (arcs : List AttackArc) :
    CleanupExpired nowMs arcs =
        arcs.filter (fun arc => nowMs - arc.createdMs < arc.ttlMs) ∧
      List.Sublist (CleanupExpired nowMs arcs) arcs ∧
      ∀ arc ∈ CleanupExpired nowMs arcs, nowMs - arc.createdMs < arc.ttlMs := by
  have hfe : CleanupExpired nowMs arcs =
      arcs.filter (fun arc => nowMs - arc.createdMs < arc.ttlMs) := by
    rw [CleanupExpired, foldl_append_filter]
    simp
  refine ⟨hfe, ?_, ?_⟩
  · rw [hfe]; exact List.filter_sublist arcs
  · intro arc harc
    rw [hfe] at harc
    simpa using (List.of_mem_filter harc)

/-- Witness for C10: a two-arc list at time 100 where the first arc is
expired and the second is not. -/
theorem claim_C10_witness :
    100 - (AttackArc.mk 0 0 0 0 "ssh" 90 50).createdMs <
      (AttackArc.mk 0 0 0 0 "ssh" 90 50).ttlMs :=
  (claim_C10 100 [AttackArc.mk 10 20 30 40 "telnet" 0 50,
      AttackArc.mk 0 0 0 0 "ssh" 90 50]).2.2
    (AttackArc.mk 0 0 0 0 "ssh" 90 50)
    (by norm_num [CleanupExpired, List.foldl])

/-- Claim C5: an arc whose age has reached or passed its TTL draws
nothing: `renderArc` returns the screen unchanged, for every globe,
rotation and arc style. -/
theorem claim_C5 (g : Globe) (arc : AttackArc) (rotation : ℝ) (screen : Grid Char)
    (arcStyle : String) (nowMs : ℤ) (httl : 0 < arc.ttlMs)
    (hage : arc.ttlMs ≤ nowMs - arc.createdMs) :
    renderArc g arc rotation screen arcStyle nowMs = screen := by
  rw [renderArc]
  have httlR : (0 : ℝ) < ((arc.ttlMs : ℤ) : ℝ) := by exact_mod_cast httl
  have hageR : ((arc.ttlMs : ℤ) : ℝ) ≤ ((nowMs - arc.createdMs : ℤ) : ℝ) := by
    exact_mod_cast hage
  have hfade : 1.0 - (((nowMs - arc.createdMs : ℤ) : ℝ) / ((arc.ttlMs : ℤ) : ℝ)) ≤ 0 := by
    have h1 : (1 : ℝ) ≤ ((nowMs - arc.createdMs : ℤ) : ℝ) / ((arc.ttlMs : ℤ) : ℝ) :=
      (one_le_div httlR).mpr hageR
    linarith
  by_cases hneg : 1.0 - (((nowMs - arc.createdMs : ℤ) : ℝ) / ((arc.ttlMs : ℤ) : ℝ)) < 0
  · rw [if_pos hneg]
  · rw [if_neg hneg]
    have hzero : 1.0 - (((nowMs - arc.createdMs : ℤ) : ℝ) / ((arc.ttlMs : ℤ) : ℝ)) = 0 :=
      le_antisymm hfade (not_lt.mp hneg)
    refine foldl_fixed _ _ _ fun s i _ => ?_
    rw [renderArcStep, hzero]
    have hcond : ¬ ((0:ℝ) * (0.3 + 0.7 * ((i : ℝ) / 30)) > 0.3 ∧
        s (project3DTo2D g (arcPathPoint arc arcStyle ((i : ℝ) / 30)).1
            (arcPathPoint arc arcStyle ((i : ℝ) / 30)).2 rotation).2.1
          (project3DTo2D g (arcPathPoint arc arcStyle ((i : ℝ) / 30)).1
            (arcPathPoint arc arcStyle ((i : ℝ) / 30)).2 rotation).1 = ' ') := by
      rintro ⟨hgt, -⟩
      rw [zero_mul] at hgt
      norm_num at hgt
    split
    · rw [if_neg hcond]
    · rfl

/-- Witness for C5: a 1000 ms arc rendered 2000 ms after creation
leaves a blank screen blank. -/
theorem claim_C5_witness :
    renderArc testGlobe (AttackArc.mk 47 8 39 (-94) "ssh" 0 1000) 0
      (fun _ _ => ' ') "curved" 2000 = fun _ _ => ' ' :=
  claim_C5 testGlobe (AttackArc.mk 47 8 39 (-94) "ssh" 0 1000) 0 (fun _ _ => ' ')
    "curved" 2000 (by norm_num) (by norm_num)


lemma lambert_bounds (lat lon rotation lightLon lightLat : ℝ) :
    0.2 ≤ lambertIntensity lat lon rotation lightLon lightLat ∧
      lambertIntensity lat lon rotation lightLon lightLat ≤ 1.0 := by
  constructor
  · simp only [lambertIntensity]
    exact le_max_left _ _
  · simp only [lambertIntensity]
    refine max_le (by norm_num) ?_
    have h1 := sin_sq_add_cos_sq (latRadOf lat)
    have h2 := sin_sq_add_cos_sq (lonRadOf lon rotation)
    have h3 := sin_sq_add_cos_sq (lightLat * π / 180)
    have h4 := sin_sq_add_cos_sq (lightLon * π / 180)
    have hn : (cos (latRadOf lat) * cos (lonRadOf lon rotation)) ^ 2 +
        sin (latRadOf lat) ^ 2 +
        (cos (latRadOf lat) * sin (lonRadOf lon rotation)) ^ 2 = 1 := by
      linear_combination (cos (latRadOf lat)) ^ 2 * h2 + h1
    have hl : (cos (lightLat * π / 180) * cos (lightLon * π / 180)) ^ 2 +
        sin (lightLat * π / 180) ^ 2 +
        (cos (lightLat * π / 180) * sin (lightLon * π / 180)) ^ 2 = 1 := by
      linear_combination (cos (lightLat * π / 180)) ^ 2 * h4 + h3
    nlinarith [sq_nonneg (cos (latRadOf lat) * cos (lonRadOf lon rotation) -
        cos (lightLat * π / 180) * cos (lightLon * π / 180)),
      sq_nonneg (sin (latRadOf lat) - sin (lightLat * π / 180)),
      sq_nonneg (cos (latRadOf lat) * sin (lonRadOf lon rotation) -
        cos (lightLat * π / 180) * sin (lightLon * π / 180))]

/-- Claim C7: `calculateLighting` always lies in `[0.2, 1.0]`; it is
exactly `1.0` when lighting is disabled; and in follow mode it uses the
pinned light direction (longitude `-rotation` in degrees, latitude
`23.5`), ignoring the caller-supplied light longitude/latitude. -/
theorem claim_C7 (g : Globe) (lat lon rotation a b : ℝ) :
    (0.2 ≤ calculateLighting g lat lon rotation ∧
        calculateLighting g lat lon rotation ≤ 1.0) ∧
      (g.lighting = false → calculateLighting g lat lon rotation = 1.0) ∧
      (g.lightFollow = true →
        calculateLighting { g with lightLon := a, lightLat := b } lat lon rotation =
          calculateLighting g lat lon rotation) ∧
      (g.lighting = true → g.lightFollow = true →
        calculateLighting g lat lon rotation =
          lambertIntensity lat lon rotation (-(rotation * 180 / π)) 23.5) := by
  refine ⟨?_, ?_, ?_, ?_⟩
  · rw [calculateLighting]
    split
    · norm_num
    · split
      · exact lambert_bounds lat lon rotation _ _
      · exact lambert_bounds lat lon rotation _ _
  · intro h
    rw [calculateLighting, if_pos h]
  · intro h
    by_cases hli : g.lighting = false
    · simp [calculateLighting, hli]
    · simp [calculateLighting, hli, h]
  · intro h1 h2
    rw [calculateLighting, if_neg (by rw [h1]; simp), if_pos h2]

/-- Witness for C7: concrete lighting evaluations on `testGlobe` with
lighting enabled in follow mode. -/
theorem claim_C7_witness :
    (0.2 ≤ calculateLighting { testGlobe with lighting := true, lightFollow := true }
          10 20 0 ∧
        calculateLighting { testGlobe with lighting := true, lightFollow := true }
          10 20 0 ≤ 1.0) ∧
      calculateLighting testGlobe 10 20 0 = 1.0 ∧
      calculateLighting
          { testGlobe with
            lighting := true, lightFollow := true, lightLon := 5, lightLat := 7 }
          10 20 0 =
        calculateLighting { testGlobe with lighting := true, lightFollow := true }
          10 20 0 ∧
      calculateLighting { testGlobe with lighting := true, lightFollow := true } 10 20 0 =
        lambertIntensity 10 20 0 (-(0 * 180 / π)) 23.5 :=
  ⟨(claim_C7 { testGlobe with lighting := true, lightFollow := true } 10 20 0 5 7).1,
   (claim_C7 testGlobe 10 20 0 0 0).2.1 rfl,
   (claim_C7 { testGlobe with lighting := true, lightFollow := true } 10 20 0 5 7).2.2.1
     rfl,
   (claim_C7 { testGlobe with lighting := true, lightFollow := true } 10 20 0 5 7).2.2.2
     rfl rfl⟩

/-- Claim C6: a negative view-space depth forces `project3DTo2D` to
report not-visible; an invisible point is never written by the marker
pass nor by an arc sampling step; and a visible report comes with
screen coordinates inside `[0,width) × [0,height)`. -/
theorem claim_C6 (g : Globe) (lat lon rotation : ℝ) :
    (depthZ lat lon rotation < 0 → (project3DTo2D g lat lon rotation).2.2 = false) ∧
      ((project3DTo2D g lat lon rotation).2.2 = true →
        0 ≤ (project3DTo2D g lat lon rotation).1 ∧
          (project3DTo2D g lat lon rotation).1 < g.width ∧
          0 ≤ (project3DTo2D g lat lon rotation).2.1 ∧
          (project3DTo2D g lat lon rotation).2.1 < g.height) ∧
      (depthZ lat lon rotation < 0 →
        ∀ (protocolGlyphs valid : Bool) (protocolForIP : String → String)
          (layer : Grid String) (ip : String),
          markerStep g rotation protocolGlyphs protocolForIP layer
              (ip, LocationInfo.mk lat lon valid) = layer) ∧
      (∀ (arc : AttackArc) (arcStyle : String) (fadeFactor : ℝ) (screen : Grid Char)
          (i : ℕ),
        depthZ (arcPathPoint arc arcStyle ((i : ℝ) / 30)).1
            (arcPathPoint arc arcStyle ((i : ℝ) / 30)).2 rotation < 0 →
        renderArcStep g arc rotation arcStyle fadeFactor screen i = screen) := by
  have hvis : ∀ lat' lon' : ℝ, depthZ lat' lon' rotation < 0 →
      (project3DTo2D g lat' lon' rotation).2.2 = false := by
    intro lat' lon' h
    rw [project3DTo2D, if_pos h]
  refine ⟨hvis lat lon, ?_, ?_, ?_⟩
  · rw [project3DTo2D]
    split
    · intro h; cases h
    · split
      · intro h; cases h
      · rename_i hd hc
        push_neg at hc
        intro _
        exact ⟨hc.1, hc.2.1, hc.2.2.1, hc.2.2.2⟩
  · intro h protocolGlyphs valid protocolForIP layer ip
    rw [markerStep]
    cases valid with
    | false => simp
    | true =>
      rw [if_pos rfl, if_neg]
      rintro ⟨h22, -⟩
      rw [hvis lat lon h] at h22
      cases h22
  · intro arc arcStyle fadeFactor screen i h
    rw [renderArcStep, if_neg]
    rintro ⟨h22, -⟩
    rw [hvis _ _ h] at h22
    cases h22


lemma adjustedLonOf_180 : adjustedLonOf 180 = -90 := by
  rw [adjustedLonOf, goMod, goTrunc]
  norm_num

lemma adjustedLonOf_90 : adjustedLonOf 90 = 0 := by
  rw [adjustedLonOf, goMod, goTrunc]
  norm_num

lemma latRadOf_zero : latRadOf 0 = 0 := by rw [latRadOf]; ring

lemma lonRadOf_180_0 : lonRadOf 180 0 = -(π / 2) := by
  rw [lonRadOf, adjustedLonOf_180]; ring

lemma lonRadOf_90_0 : lonRadOf 90 0 = 0 := by
  rw [lonRadOf, adjustedLonOf_90]; ring

lemma depthZ_0_180_0 : depthZ 0 180 0 = -1 := by
  rw [depthZ, latRadOf_zero, lonRadOf_180_0]
  rw [Real.sin_neg, Real.sin_pi_div_two, Real.cos_zero]
  ring

lemma depthZ_0_90_0 : depthZ 0 90 0 = 0 := by
  rw [depthZ, latRadOf_zero, lonRadOf_90_0]
  rw [Real.sin_zero]
  ring

lemma screenXOf_witness : screenXOf testGlobe 0 90 0 = 36 := by
  rw [screenXOf, sphX, latRadOf_zero, lonRadOf_90_0]
  have htdiv : Int.tdiv (40 : ℤ) 2 = 20 := by decide
  simp only [testGlobe, Real.cos_zero, goTrunc]
  norm_num [htdiv]

lemma screenYOf_witness : screenYOf testGlobe 0 = 10 := by
  rw [screenYOf, sphY, latRadOf_zero]
  have htdiv : Int.tdiv (20 : ℤ) 2 = 10 := by decide
  simp only [testGlobe, Real.sin_zero, goTrunc]
  norm_num [htdiv]

lemma project_witness_visible : project3DTo2D testGlobe 0 90 0 = (36, 10, true) := by
  rw [project3DTo2D, if_neg (by rw [depthZ_0_90_0]; norm_num)]
  rw [screenXOf_witness, screenYOf_witness]
  rw [if_neg (by simp only [testGlobe]; norm_num)]

/-- Witness for C6: the point (lat 0, lon 180) has view depth -1 at
rotation 0 and is reported invisible, is skipped by the marker pass and
by an arc sampling step; while the visible point (lat 0, lon 90)
projects inside the 40x20 viewport. -/
theorem claim_C6_witness :
    (project3DTo2D testGlobe 0 180 0).2.2 = false ∧
      (0 ≤ (project3DTo2D testGlobe 0 90 0).1 ∧
        (project3DTo2D testGlobe 0 90 0).1 < testGlobe.width ∧
        0 ≤ (project3DTo2D testGlobe 0 90 0).2.1 ∧
        (project3DTo2D testGlobe 0 90 0).2.1 < testGlobe.height) ∧
      markerStep testGlobe 0 false (fun _ => "") (fun _ _ => "")
          ("203.0.113.7", LocationInfo.mk 0 180 true) = (fun _ _ => "") ∧
      renderArcStep testGlobe (AttackArc.mk 0 180 39 (-94) "ssh" 0 1000) 0
          "straight" 1 (fun _ _ => ' ') 0 = (fun _ _ => ' ') := by
  have hz : depthZ 0 180 0 < 0 := by rw [depthZ_0_180_0]; norm_num
  have hpath : arcPathPoint (AttackArc.mk 0 180 39 (-94) "ssh" 0 1000) "straight"
      ((0 : ℕ) : ℝ) = ((0 : ℝ), (180 : ℝ)) := by
    rw [arcPathPoint, if_neg (by decide)]
    norm_num
  refine ⟨(claim_C6 testGlobe 0 180 0).1 hz, ?_, ?_, ?_⟩
  · exact (claim_C6 testGlobe 0 90 0).2.1
      (by rw [project_witness_visible])
  · exact (claim_C6 testGlobe 0 180 0).2.2.1 hz false true (fun _ => "") (fun _ _ => "")
      "203.0.113.7"
  · refine (claim_C6 testGlobe 0 0 0).2.2.2 (AttackArc.mk 0 180 39 (-94) "ssh" 0 1000)
      "straight" 1 (fun _ _ => ' ') 0 ?_
    have h30 : ((0 : ℕ) : ℝ) / 30 = ((0 : ℕ) : ℝ) := by norm_num
    rw [h30, hpath]
    exact hz


/-- A descending threshold ladder `if d > t1 then c1 else if d > t2 …`,
as used by all three `densityTo…` palettes. -/
noncomputable def ladder : List (ℝ × Char) → Char → ℝ → Char
  | [], bottom, _ => bottom
  | (t, c) :: rest, bottom, d => if d > t then c else ladder rest bottom d

/-- Well-formedness of a ladder for a weight function: every rung
outweighs all later rungs and the bottom glyph. -/
def ladderWF (W : Char → ℕ) : List (ℝ × Char) → Char → Prop
  | [], _ => True
  | (_, c) :: rest, b => (∀ p ∈ rest, W p.2 ≤ W c) ∧ W b ≤ W c ∧ ladderWF W rest b

lemma ladder_result (L : List (ℝ × Char)) (b : Char) (d : ℝ) :
    (∃ p ∈ L, ladder L b d = p.2) ∨ ladder L b d = b := by
  induction L with
  | nil => right; rfl
  | cons hd rest ih =>
    obtain ⟨t, c⟩ := hd
    rw [ladder]
    by_cases h : d > t
    · rw [if_pos h]; left; exact ⟨(t, c), List.mem_cons_self _ _, rfl⟩
    · rw [if_neg h]
      rcases ih with ⟨p, hp, he⟩ | he
      · left; exact ⟨p, List.mem_cons_of_mem _ hp, he⟩
      · right; exact he

lemma ladder_mono (W : Char → ℕ) (L : List (ℝ × Char)) (b : Char) (d1 d2 : ℝ)
    (h : d1 ≤ d2) (hwf : ladderWF W L b) : W (ladder L b d1) ≤ W (ladder L b d2) := by
  induction L with
  | nil => exact le_refl _
  | cons hd rest ih =>
    obtain ⟨t, c⟩ := hd
    obtain ⟨hall, hb, hwf2⟩ := hwf
    rw [ladder, ladder]
    by_cases h2 : d2 > t
    · rw [if_pos h2]
      by_cases h1 : d1 > t
      · rw [if_pos h1]
      · rw [if_neg h1]
        rcases ladder_result rest b d1 with ⟨p, hp, he⟩ | he
        · rw [he]; exact hall p hp
        · rw [he]; exact hb
    · rw [if_neg h2, if_neg (by intro h1; exact h2 (lt_of_lt_of_le h1 h))]
      exact ih hwf2

lemma densityToASCII_ladder (d : ℝ) : densityToASCII d = ladder
    [(1.0, '@'), (0.8, '#'), (0.6, '%'), (0.4, 'o'), (0.3, '='), (0.2, '+'),
     (0.15, '-'), (0.1, '.'), (0.05, '`')] ' ' d := rfl

lemma densityToBlock_ladder (d : ℝ) : densityToBlock d = ladder
    [(1.0, '█'), (0.875, '▓'), (0.75, '▒'), (0.625, '░'), (0.5, '▄'), (0.375, '▃'),
     (0.25, '▂'), (0.125, '▁')] ' ' d := rfl

lemma densityToBraille_ladder (d : ℝ) : densityToBraille d = ladder
    [(1.0, '⣿'), (0.9, '⣾'), (0.8, '⣶'), (0.7, '⣦'), (0.6, '⣤'), (0.5, '⣀'),
     (0.4, '⡀'), (0.3, '⠄'), (0.2, '⠂'), (0.15, '⠁'), (0.1, '⠀')] ' ' d := rfl

/-- Claim C8: for every palette `densityToChar` is monotone in visual
weight (the glyph's position in the palette's ladder), and every
density above `1.0` selects the palette's maximum-weight glyph
(`'@'`, `'█'`, `'⣿'`). -/
theorem claim_C8 (charset : Charset) (d1 d2 d : ℝ) (h12 : d1 ≤ d2) (hd : d > 1.0) :
    charWeight charset (densityToChar d1 charset) ≤
        charWeight charset (densityToChar d2 charset) ∧
      densityToChar d charset = maxGlyph charset := by
  cases charset with
  | ascii =>
    constructor
    · rw [densityToChar, densityToChar, densityToASCII_ladder, densityToASCII_ladder]
      exact ladder_mono _ _ _ d1 d2 h12 (by simp [ladderWF, charWeight, paletteGlyphs])
    · rw [densityToChar, densityToASCII, if_pos hd]; rfl
  | blocks =>
    constructor
    · rw [densityToChar, densityToChar, densityToBlock_ladder, densityToBlock_ladder]
      exact ladder_mono _ _ _ d1 d2 h12 (by simp [ladderWF, charWeight, paletteGlyphs])
    · rw [densityToChar, densityToBlock, if_pos hd]; rfl
  | braille =>
    constructor
    · rw [densityToChar, densityToChar, densityToBraille_ladder, densityToBraille_ladder]
      exact ladder_mono _ _ _ d1 d2 h12 (by simp [ladderWF, charWeight, paletteGlyphs])
    · rw [densityToChar, densityToBraille, if_pos hd]; rfl

/-- Witness for C8 on the ASCII palette at densities 0.5 ≤ 0.9 and 2. -/
theorem claim_C8_witness :
    charWeight Charset.ascii (densityToChar 0.5 Charset.ascii) ≤
        charWeight Charset.ascii (densityToChar 0.9 Charset.ascii) ∧
      densityToChar 2 Charset.ascii = maxGlyph Charset.ascii :=
  claim_C8 Charset.ascii 0.5 0.9 2 (by norm_num) (by norm_num)


set_option maxRecDepth 10000 in
lemma getEarthBitmap_row_lengths : ∀ row ∈ getEarthBitmap, row.length = 120 := by
  decide

set_option maxRecDepth 100000 in
lemma getEarthBitmap_chars : ∀ row ∈ getEarthBitmap, ∀ c ∈ row.toList,
    c = ' ' ∨ c = '#' := by
  decide

lemma getEarthBitmap_length : getEarthBitmap.length = 60 := rfl

/-- Any character sampled from the real terrain raster is a space or
`'#'`. -/
lemma sampleEarthAt_mem (g : Globe) (hmap : g.earthMap = getEarthBitmap)
    (hW : g.mapW = 120) (hH : g.mapH = 60) (lat lon : ℝ) :
    sampleEarthAt g lat lon = ' ' ∨ sampleEarthAt g lat lon = '#' := by
  rw [sampleEarthAt, hmap, hW, hH]
  obtain ⟨hy0, hy1⟩ :=
    clampIdx_bounds (goTrunc ((lat + 90) / 180 * ((60 - 1 : ℤ) : ℝ))) 60 (by norm_num)
  obtain ⟨hx0, hx1⟩ :=
    clampIdx_bounds (goTrunc ((lon + 180) / 360 * ((120 - 1 : ℤ) : ℝ))) 120 (by norm_num)
  have hyn : (clampIdx (goTrunc ((lat + 90) / 180 * ((60 - 1 : ℤ) : ℝ))) 60).toNat <
      getEarthBitmap.length := by
    rw [getEarthBitmap_length]; omega
  rw [List.getD_eq_getElem getEarthBitmap "" hyn]
  have hrow := List.getElem_mem hyn
  have hlen := getEarthBitmap_row_lengths _ hrow
  have hxn : (clampIdx (goTrunc ((lon + 180) / 360 * ((120 - 1 : ℤ) : ℝ))) 120).toNat <
      (getEarthBitmap[(clampIdx (goTrunc ((lat + 90) / 180 * ((60 - 1 : ℤ) : ℝ)))
        60).toNat]).toList.length := by
    have : (getEarthBitmap[(clampIdx (goTrunc ((lat + 90) / 180 * ((60 - 1 : ℤ) : ℝ)))
        60).toNat]).toList.length =
        (getEarthBitmap[(clampIdx (goTrunc ((lat + 90) / 180 * ((60 - 1 : ℤ) : ℝ)))
          60).toNat]).length := rfl
    rw [this, hlen]
    omega
  rw [List.getD_eq_getElem _ ' ' hxn]
  exact getEarthBitmap_chars _ hrow _ (List.getElem_mem hxn)

/-- Claim C4: for a character actually sampled from the terrain raster,
the base weight is 1.0 for `'#'`, 0.8 for any other non-space character,
and 0 (no contribution) for a space.  On the shipped raster only `'#'`
and spaces occur, so the 0.8 clause is vacuous (the code would give
`'.'` the weight 0.6, but `'.'` never occurs in the raster). -/
theorem claim_C4 (g : Globe) (hmap : g.earthMap = getEarthBitmap)
    (hW : g.mapW = 120) (hH : g.mapH = 60) (lat lon : ℝ) :
    sampledWeight (sampleEarthAt g lat lon) =
      if sampleEarthAt g lat lon = '#' then 1.0
      else if sampleEarthAt g lat lon = ' ' then 0 else 0.8 := by
  rcases sampleEarthAt_mem g hmap hW hH lat lon with h | h <;>
    rw [h] <;> simp [sampledWeight, terrainBaseDensity]

/-- Witness for C4 on `testGlobe` at latitude 0, longitude 0. -/
theorem claim_C4_witness :
    sampledWeight (sampleEarthAt testGlobe 0 0) =
      if sampleEarthAt testGlobe 0 0 = '#' then 1.0
      else if sampleEarthAt testGlobe 0 0 = ' ' then 0 else 0.8 :=
  claim_C4 testGlobe rfl rfl rfl 0 0


/-- The nine cells targeted by the anti-aliasing loops, in iteration
order. -/
def bleedTargets (x y : ℤ) : List (ℤ × ℤ) :=
  [(y + -1, x + -1), (y + -1, x + 0), (y + -1, x + 1),
   (y + 0, x + -1), (y + 0, x + 0), (y + 0, x + 1),
   (y + 1, x + -1), (y + 1, x + 0), (y + 1, x + 1)]

lemma bleedLoop_eq_targets (g : Globe) (lightFactor : ℝ) (x y : ℤ) (d : Grid ℝ) :
    bleedLoop g lightFactor x y d =
      (bleedTargets x y).foldl (fun d t =>
        if 0 ≤ t.2 ∧ t.2 < g.width ∧ 0 ≤ t.1 ∧ t.1 < g.height then
          addAt d t.1 t.2 (0.05 * lightFactor)
        else d) d := rfl

lemma addAt_ne (d : Grid ℝ) (ty tx : ℤ) (v : ℝ) (qy qx : ℤ)
    (h : ¬(qy = ty ∧ qx = tx)) : addAt d ty tx v qy qx = d qy qx := by
  rw [addAt, upd, if_neg h]

lemma addAt_self (d : Grid ℝ) (ty tx : ℤ) (v : ℝ) :
    addAt d ty tx v ty tx = d ty tx + v := by
  rw [addAt, upd, if_pos ⟨rfl, rfl⟩]

lemma bleedFold_not_mem (g : Globe) (v : ℝ) (ts : List (ℤ × ℤ)) (d : Grid ℝ)
    (qy qx : ℤ) (h : (qy, qx) ∉ ts) :
    (ts.foldl (fun d t =>
        if 0 ≤ t.2 ∧ t.2 < g.width ∧ 0 ≤ t.1 ∧ t.1 < g.height then
          addAt d t.1 t.2 v
        else d) d) qy qx = d qy qx := by
  induction ts generalizing d with
  | nil => rfl
  | cons t ts ih =>
    have hne : ¬(qy = t.1 ∧ qx = t.2) := by
      rintro ⟨h1, h2⟩
      exact h (by rw [List.mem_cons]; left; rw [Prod.ext_iff]; exact ⟨h1, h2⟩)
    rw [List.foldl_cons]
    rw [ih _ fun hm => h (List.mem_cons_of_mem _ hm)]
    split
    · exact addAt_ne d t.1 t.2 v qy qx hne
    · rfl

lemma bleedFold_mem (g : Globe) (v : ℝ) (ts : List (ℤ × ℤ)) (d : Grid ℝ)
    (qy qx : ℤ) (hnd : ts.Nodup) (hmem : (qy, qx) ∈ ts) :
    (ts.foldl (fun d t =>
        if 0 ≤ t.2 ∧ t.2 < g.width ∧ 0 ≤ t.1 ∧ t.1 < g.height then
          addAt d t.1 t.2 v
        else d) d) qy qx =
      d qy qx + (if 0 ≤ qx ∧ qx < g.width ∧ 0 ≤ qy ∧ qy < g.height then v else 0) := by
  induction ts generalizing d with
  | nil => cases hmem
  | cons t ts ih =>
    rw [List.foldl_cons]
    rw [List.nodup_cons] at hnd
    rcases List.mem_cons.mp hmem with heq | hmem2
    · have hq : t = (qy, qx) := heq.symm
      subst hq
      dsimp only
      rw [bleedFold_not_mem g v ts _ qy qx hnd.1]
      by_cases hc : 0 ≤ qx ∧ qx < g.width ∧ 0 ≤ qy ∧ qy < g.height
      · rw [if_pos hc, if_pos hc, addAt_self]
      · rw [if_neg hc, if_neg hc]
        ring
    · have hne : ¬(qy = t.1 ∧ qx = t.2) := by
        rintro ⟨h1, h2⟩
        apply hnd.1
        have ht : t = (qy, qx) := by rw [Prod.ext_iff]; exact ⟨h1.symm, h2.symm⟩
        exact ht ▸ hmem2
      have hstep :
          (if 0 ≤ t.2 ∧ t.2 < g.width ∧ 0 ≤ t.1 ∧ t.1 < g.height then
            addAt d t.1 t.2 v else d) qy qx = d qy qx := by
        split
        · exact addAt_ne d t.1 t.2 v qy qx hne
        · rfl
      rw [ih _ hnd.2 hmem2, hstep]

lemma bleedTargets_nodup (x y : ℤ) : (bleedTargets x y).Nodup := by
  simp [bleedTargets, Prod.ext_iff]

lemma bleedLoop_at (g : Globe) (lightFactor : ℝ) (x y : ℤ) (d : Grid ℝ) (qy qx : ℤ) :
    bleedLoop g lightFactor x y d qy qx =
      d qy qx + (if (qy, qx) ∈ bleedTargets x y ∧ 0 ≤ qx ∧ qx < g.width ∧
          0 ≤ qy ∧ qy < g.height then 0.05 * lightFactor else 0) := by
  rw [bleedLoop_eq_targets]
  by_cases hmem : (qy, qx) ∈ bleedTargets x y
  · rw [bleedFold_mem g _ _ d qy qx (bleedTargets_nodup x y) hmem]
    by_cases hb : 0 ≤ qx ∧ qx < g.width ∧ 0 ≤ qy ∧ qy < g.height
    · rw [if_pos hb, if_pos ⟨hmem, hb⟩]
    · rw [if_neg hb, if_neg fun hc => hb hc.2]
  · rw [bleedFold_not_mem g _ _ d qy qx hmem]
    rw [if_neg fun hc => hmem hc.1]
    ring


lemma mem_bleedTargets (x y x2 y2 : ℤ) (hx : (x2 - x).natAbs ≤ 1)
    (hy : (y2 - y).natAbs ≤ 1) : (y2, x2) ∈ bleedTargets x y := by
  have h1 : x2 = x + -1 ∨ x2 = x + 0 ∨ x2 = x + 1 := by omega
  have h2 : y2 = y + -1 ∨ y2 = y + 0 ∨ y2 = y + 1 := by omega
  rw [bleedTargets]
  rcases h1 with h1 | h1 | h1 <;> rcases h2 with h2 | h2 | h2 <;> subst h1 <;> subst h2 <;>
    simp

lemma center_mem_bleedTargets (x y : ℤ) : (y, x) ∈ bleedTargets x y := by
  simp [bleedTargets]

/-- Claim C3 (amended): processing a screen cell that inverts to a
non-ocean sample adds `baseWeight * lightIntensity` **plus one
additional `0.05 * lightIntensity` bleed share** to the cell itself
(the 3×3 anti-aliasing loop includes offset (0,0)), besides the border
ring term; each of the 8 surrounding in-bounds cells receives
`0.05 * lightIntensity`. -/
theorem claim_C3 (g : Globe) (rotation : ℝ) (x y : ℤ) (d : Grid ℝ) (lat lon : ℝ)
    (hinv : densityPassInverseR g rotation (x : ℝ) (y : ℝ) = some (lat, lon))
    (hchar : sampleEarthAt g lat lon ≠ ' ')
    (hx0 : 0 ≤ x) (hx1 : x < g.width) (hy0 : 0 ≤ y) (hy1 : y < g.height) :
    (accumulateCell g rotation x y d) y x =
        d y x +
          terrainBaseDensity (sampleEarthAt g lat lon) *
            calculateLighting g lat lon rotation +
          0.05 * calculateLighting g lat lon rotation +
          (if g.radius * g.zoom - 0.5 < cellDistance g (x : ℝ) (y : ℝ) ∧
              cellDistance g (x : ℝ) (y : ℝ) < g.radius * g.zoom + 0.5 then
            (0.2 : ℝ) else 0) ∧
      ∀ x2 y2 : ℤ, ¬(y2 = y ∧ x2 = x) → (x2 - x).natAbs ≤ 1 → (y2 - y).natAbs ≤ 1 →
        0 ≤ x2 → x2 < g.width → 0 ≤ y2 → y2 < g.height →
        (accumulateCell g rotation x y d) y2 x2 =
          d y2 x2 + 0.05 * calculateLighting g lat lon rotation := by
  have hunfold : accumulateCell g rotation x y d =
      (if g.radius * g.zoom - 0.5 < cellDistance g (x : ℝ) (y : ℝ) ∧
          cellDistance g (x : ℝ) (y : ℝ) < g.radius * g.zoom + 0.5 then
        addAt (bleedLoop g (calculateLighting g lat lon rotation) x y
          (addAt d y x (terrainBaseDensity (sampleEarthAt g lat lon) *
            calculateLighting g lat lon rotation))) y x 0.2
      else bleedLoop g (calculateLighting g lat lon rotation) x y
        (addAt d y x (terrainBaseDensity (sampleEarthAt g lat lon) *
          calculateLighting g lat lon rotation))) := by
    rw [accumulateCell, hinv]
    dsimp only
    rw [if_pos hchar]
  constructor
  · rw [hunfold]
    by_cases hb : g.radius * g.zoom - 0.5 < cellDistance g (x : ℝ) (y : ℝ) ∧
        cellDistance g (x : ℝ) (y : ℝ) < g.radius * g.zoom + 0.5
    · rw [if_pos hb, if_pos hb, addAt_self, bleedLoop_at, addAt_self,
        if_pos ⟨center_mem_bleedTargets x y, hx0, hx1, hy0, hy1⟩]
    · rw [if_neg hb, if_neg hb, bleedLoop_at, addAt_self,
        if_pos ⟨center_mem_bleedTargets x y, hx0, hx1, hy0, hy1⟩]
      ring
  · intro x2 y2 hne hnx hny hx2a hx2b hy2a hy2b
    rw [hunfold]
    have hbl : bleedLoop g (calculateLighting g lat lon rotation) x y
        (addAt d y x (terrainBaseDensity (sampleEarthAt g lat lon) *
          calculateLighting g lat lon rotation)) y2 x2 =
        d y2 x2 + 0.05 * calculateLighting g lat lon rotation := by
      rw [bleedLoop_at,
        if_pos ⟨mem_bleedTargets x y x2 y2 hnx hny, hx2a, hx2b, hy2a, hy2b⟩,
        addAt_ne _ _ _ _ _ _ hne]
    by_cases hb : g.radius * g.zoom - 0.5 < cellDistance g (x : ℝ) (y : ℝ) ∧
        cellDistance g (x : ℝ) (y : ℝ) < g.radius * g.zoom + 0.5
    · rw [if_pos hb, addAt_ne _ _ _ _ _ _ hne, hbl]
    · rw [if_neg hb, hbl]


lemma tdiv_40_2 : Int.tdiv (40 : ℤ) 2 = 20 := by decide

lemma tdiv_20_2 : Int.tdiv (20 : ℤ) 2 = 10 := by decide

lemma cellDX_20 : cellDX testGlobe 20 = 0 := by
  rw [cellDX, centerX]
  simp [testGlobe, tdiv_40_2]

lemma cellDY_10 : cellDY testGlobe 10 = 0 := by
  rw [cellDY, centerY]
  simp [testGlobe, tdiv_20_2]

lemma cellDistance_center : cellDistance testGlobe 20 10 = 0 := by
  rw [cellDistance, cellDX_20, cellDY_10]
  norm_num

lemma lonWrap_30 : lonWrap (30 : ℝ) = 30 := by
  rw [lonWrap, wrapLow, dif_neg (by norm_num), wrapHigh, dif_neg (by norm_num)]

lemma goAtan2_0_1 : goAtan2 0 1 = 0 := by
  rw [goAtan2, if_pos (by norm_num)]
  norm_num [Real.arctan_zero]

lemma inverse_center : densityPassInverseR testGlobe (π / 6) 20 10 = some (0, 30) := by
  rw [densityPassInverseR]
  have heff : testGlobe.radius * testGlobe.zoom = 16 := by norm_num [testGlobe]
  rw [cellDistance_center, cellDX_20, cellDY_10, heff]
  rw [if_pos (by norm_num), if_pos (by norm_num)]
  have hlat : arcsin (0 / 16) * 180 / π = 0 := by norm_num
  have hlon : lonWrap (goAtan2 (0 / 16) (Real.sqrt (1 - 0 / 16 * (0 / 16) -
      0 / 16 * (0 / 16))) * 180 / π + π / 6 * 180 / π) = 30 := by
    have h1 : (0 : ℝ) / 16 = 0 := by norm_num
    rw [h1]
    have h2 : Real.sqrt (1 - 0 * 0 - 0 * 0) = 1 := by norm_num
    rw [h2, goAtan2_0_1]
    have h3 : (0 : ℝ) * 180 / π = 0 := by norm_num
    have h4 : π / 6 * 180 / π = 30 := by
      field_simp
      ring
    rw [h3, h4, zero_add, lonWrap_30]
  dsimp only
  rw [hlat, hlon]

lemma sample_0_30 : sampleEarthAt testGlobe 0 30 = '#' := by
  rw [sampleEarthAt]
  have hmape : testGlobe.earthMap = getEarthBitmap := rfl
  have hH : testGlobe.mapH = 60 := rfl
  have hW : testGlobe.mapW = 120 := rfl
  rw [hmape, hH, hW]
  have hyv : ((0 : ℝ) + 90) / 180 * (((60 : ℤ) - 1 : ℤ) : ℝ) = 29.5 := by
    push_cast
    norm_num
  have hxv : ((30 : ℝ) + 180) / 360 * (((120 : ℤ) - 1 : ℤ) : ℝ) = 833 / 12 := by
    push_cast
    norm_num
  rw [hyv, hxv]
  have hy : goTrunc (29.5 : ℝ) = 29 := by
    rw [goTrunc, if_pos (by norm_num)]
    norm_num
  have hx : goTrunc ((833 : ℝ) / 12) = 69 := by
    rw [goTrunc, if_pos (by norm_num)]
    norm_num
  rw [hy, hx]
  have hcy : clampIdx 29 60 = 29 := by decide
  have hcx : clampIdx 69 120 = 69 := by decide
  rw [hcy, hcx]
  rfl

lemma lighting_off_center : calculateLighting testGlobe 0 30 (π / 6) = 1.0 := by
  rw [calculateLighting, if_pos (show testGlobe.lighting = false from rfl)]

lemma testGlobe_effR : testGlobe.radius * testGlobe.zoom = 16 := by
  norm_num [testGlobe]

lemma accumulate_center_value :
    accumulateCell testGlobe (π / 6) 20 10 (fun _ _ => 0) 10 20 = 1.05 := by
  have hc20 : (((20 : ℤ)) : ℝ) = (20 : ℝ) := by norm_num
  have hc10 : (((10 : ℤ)) : ℝ) = (10 : ℝ) := by norm_num
  rw [accumulateCell, hc20, hc10, inverse_center]
  dsimp only
  rw [if_neg (show ¬(testGlobe.radius * testGlobe.zoom - 0.5 <
      cellDistance testGlobe 20 10 ∧
      cellDistance testGlobe 20 10 < testGlobe.radius * testGlobe.zoom + 0.5) from by
    rw [cellDistance_center, testGlobe_effR]
    norm_num)]
  rw [sample_0_30]
  rw [if_pos (show ('#' : Char) ≠ ' ' from by decide)]
  rw [lighting_off_center]
  rw [bleedLoop_at, if_pos ⟨by decide, by decide, by decide, by decide, by decide⟩,
    addAt_self]
  rw [terrainBaseDensity, if_pos rfl]
  norm_num

/-- Counterexample for C3: on `testGlobe` at rotation π/6, screen cell
(x=20, y=10) inverts to (lat 0, lon 30), which samples land `'#'` with
light factor 1; the claim says the cell receives exactly
`baseWeight * lightIntensity = 1.0`, but the code's anti-aliasing loop
also adds `0.05 * lightIntensity` to the cell itself, giving 1.05. -/
theorem claim_C3_counterexample :
    densityPassInverseR testGlobe (π / 6) 20 10 = some (0, 30) ∧
      sampleEarthAt testGlobe 0 30 = '#' ∧
      accumulateCell testGlobe (π / 6) 20 10 (fun _ _ => 0) 10 20 = 1.05 ∧
      accumulateCell testGlobe (π / 6) 20 10 (fun _ _ => 0) 10 20 ≠
        (fun _ _ => (0 : ℝ)) 10 20 +
          terrainBaseDensity (sampleEarthAt testGlobe 0 30) *
            calculateLighting testGlobe 0 30 (π / 6) := by
  refine ⟨inverse_center, sample_0_30, accumulate_center_value, ?_⟩
  rw [accumulate_center_value, sample_0_30, lighting_off_center, terrainBaseDensity,
    if_pos rfl]
  norm_num

/-- Witness for the amended C3 at the concrete input of the
counterexample. -/
theorem claim_C3_witness :
    accumulateCell testGlobe (π / 6) 20 10 (fun _ _ => 0) 10 20 =
        (fun _ _ => (0 : ℝ)) 10 20 +
          terrainBaseDensity (sampleEarthAt testGlobe 0 30) *
            calculateLighting testGlobe 0 30 (π / 6) +
          0.05 * calculateLighting testGlobe 0 30 (π / 6) +
          (if testGlobe.radius * testGlobe.zoom - 0.5 <
              cellDistance testGlobe ((20 : ℤ) : ℝ) ((10 : ℤ) : ℝ) ∧
              cellDistance testGlobe ((20 : ℤ) : ℝ) ((10 : ℤ) : ℝ) <
                testGlobe.radius * testGlobe.zoom + 0.5 then
            (0.2 : ℝ) else 0) ∧
      ∀ x2 y2 : ℤ, ¬(y2 = 10 ∧ x2 = 20) → (x2 - 20).natAbs ≤ 1 →
        (y2 - 10).natAbs ≤ 1 → 0 ≤ x2 → x2 < testGlobe.width → 0 ≤ y2 →
        y2 < testGlobe.height →
        accumulateCell testGlobe (π / 6) 20 10 (fun _ _ => 0) y2 x2 =
          (fun _ _ => (0 : ℝ)) y2 x2 +
            0.05 * calculateLighting testGlobe 0 30 (π / 6) :=
  claim_C3 testGlobe (π / 6) 20 10 (fun _ _ => 0) 0 30
    (by rw [show (((20 : ℤ)) : ℝ) = (20 : ℝ) by norm_num,
          show (((10 : ℤ)) : ℝ) = (10 : ℝ) by norm_num]
        exact inverse_center)
    (by rw [sample_0_30]; decide) (by decide) (by decide) (by decide) (by decide)


lemma upd_ne {α : Type} (grid : Grid α) (y x : ℤ) (v : α) (qy qx : ℤ)
    (h : ¬(qy = y ∧ qx = x)) : upd grid y x v qy qx = grid qy qx := by
  rw [upd, if_neg h]

lemma upd_self {α : Type} (grid : Grid α) (y x : ℤ) (v : α) : upd grid y x v y x = v := by
  rw [upd, if_pos ⟨rfl, rfl⟩]

/-- The character the final pass leaves in cell `(y, x)`: the attack
overlay when the attack layer holds a non-empty protocol entry, the
density character otherwise (lines 2589-2603). -/
noncomputable def overlayChar (charset : Charset) (protocolGlyphs : Bool)
    (density : Grid ℝ) (layer : Grid String) (y x : ℤ) : Char :=
  if layer y x ≠ "" then
    (if protocolGlyphs = true ∧ layer y x ≠ "" then getProtocolGlyph (layer y x)
     else '*')
  else densityToChar (density y x) charset

lemma finalCellWrite_ne (charset : Charset) (protocolGlyphs : Bool) (density : Grid ℝ)
    (layer : Grid String) (s : Grid Char) (y x qy qx : ℤ) (h : ¬(qy = y ∧ qx = x)) :
    finalCellWrite charset protocolGlyphs density layer s y x qy qx = s qy qx := by
  have hu : ∀ (s2 : Grid Char) (v : Char), upd s2 y x v qy qx = s2 qy qx :=
    fun s2 v => upd_ne s2 y x v qy qx h
  rw [finalCellWrite]
  dsimp only
  split_ifs <;> simp only [hu]

lemma finalCellWrite_self (charset : Charset) (protocolGlyphs : Bool) (density : Grid ℝ)
    (layer : Grid String) (s : Grid Char) (y x : ℤ) :
    finalCellWrite charset protocolGlyphs density layer s y x y x =
      overlayChar charset protocolGlyphs density layer y x := by
  rw [finalCellWrite, overlayChar]
  dsimp only
  split_ifs <;> simp only [upd_self]

lemma rowFold_ne (charset : Charset) (protocolGlyphs : Bool) (density : Grid ℝ)
    (layer : Grid String) (y : ℕ) (xs : List ℕ) (s : Grid Char) (qy qx : ℤ)
    (h : qy ≠ (y : ℤ)) :
    (xs.foldl (fun s (x : ℕ) => finalCellWrite charset protocolGlyphs density layer s
      (y : ℤ) (x : ℤ)) s) qy qx = s qy qx := by
  induction xs generalizing s with
  | nil => rfl
  | cons a xs ih =>
    rw [List.foldl_cons, ih]
    exact finalCellWrite_ne _ _ _ _ _ _ _ _ _ fun hc => h hc.1

lemma rowFold_not_mem (charset : Charset) (protocolGlyphs : Bool) (density : Grid ℝ)
    (layer : Grid String) (y : ℕ) (xs : List ℕ) (s : Grid Char) (x0 : ℕ)
    (h : x0 ∉ xs) :
    (xs.foldl (fun s (x : ℕ) => finalCellWrite charset protocolGlyphs density layer s
      (y : ℤ) (x : ℤ)) s) (y : ℤ) (x0 : ℤ) = s (y : ℤ) (x0 : ℤ) := by
  induction xs generalizing s with
  | nil => rfl
  | cons a xs ih =>
    rw [List.foldl_cons, ih _ fun hm => h (List.mem_cons_of_mem _ hm)]
    refine finalCellWrite_ne _ _ _ _ _ _ _ _ _ fun hc => ?_
    have : x0 = a := by exact_mod_cast hc.2
    exact h (this ▸ List.mem_cons_self a xs)

lemma rowFold_mem (charset : Charset) (protocolGlyphs : Bool) (density : Grid ℝ)
    (layer : Grid String) (y : ℕ) (xs : List ℕ) (s : Grid Char) (x0 : ℕ)
    (hnd : xs.Nodup) (hmem : x0 ∈ xs) :
    (xs.foldl (fun s (x : ℕ) => finalCellWrite charset protocolGlyphs density layer s
      (y : ℤ) (x : ℤ)) s) (y : ℤ) (x0 : ℤ) =
      overlayChar charset protocolGlyphs density layer (y : ℤ) (x0 : ℤ) := by
  induction xs generalizing s with
  | nil => cases hmem
  | cons a xs ih =>
    rw [List.nodup_cons] at hnd
    rw [List.foldl_cons]
    rcases List.mem_cons.mp hmem with heq | hmem2
    · subst heq
      rw [rowFold_not_mem _ _ _ _ _ _ _ _ hnd.1]
      exact finalCellWrite_self _ _ _ _ _ _ _
    · exact ih _ hnd.2 hmem2

lemma colFold_ne (g : Globe) (charset : Charset) (protocolGlyphs : Bool)
    (density : Grid ℝ) (layer : Grid String) (ys : List ℕ) (s : Grid Char)
    (y0 : ℕ) (qx : ℤ) (h : y0 ∉ ys) :
    (ys.foldl (fun s (y : ℕ) => (List.range g.width.toNat).foldl
      (fun s (x : ℕ) => finalCellWrite charset protocolGlyphs density layer s
        (y : ℤ) (x : ℤ)) s) s) (y0 : ℤ) qx = s (y0 : ℤ) qx := by
  induction ys generalizing s with
  | nil => rfl
  | cons a ys ih =>
    rw [List.foldl_cons, ih _ fun hm => h (List.mem_cons_of_mem _ hm)]
    refine rowFold_ne _ _ _ _ _ _ _ _ _ fun hc => ?_
    have : y0 = a := by exact_mod_cast hc
    exact h (this ▸ List.mem_cons_self a ys)

lemma finalPass_at (g : Globe) (charset : Charset) (protocolGlyphs : Bool)
    (density : Grid ℝ) (layer : Grid String) (s : Grid Char) (y0 x0 : ℕ)
    (hy : y0 < g.height.toNat) (hx : x0 < g.width.toNat) :
    finalPass g charset protocolGlyphs density layer s (y0 : ℤ) (x0 : ℤ) =
      overlayChar charset protocolGlyphs density layer (y0 : ℤ) (x0 : ℤ) := by
  rw [finalPass]
  have hgen : ∀ ys : List ℕ, ys.Nodup → y0 ∈ ys → ∀ s : Grid Char,
      (ys.foldl (fun s (y : ℕ) => (List.range g.width.toNat).foldl
        (fun s (x : ℕ) => finalCellWrite charset protocolGlyphs density layer s
          (y : ℤ) (x : ℤ)) s) s) (y0 : ℤ) (x0 : ℤ) =
        overlayChar charset protocolGlyphs density layer (y0 : ℤ) (x0 : ℤ) := by
    intro ys
    induction ys with
    | nil => intro _ hmem; cases hmem
    | cons a ys ih =>
      intro hnd hmem s
      rw [List.nodup_cons] at hnd
      rw [List.foldl_cons]
      rcases List.mem_cons.mp hmem with heq | hmem2
      · subst heq
        rw [colFold_ne _ _ _ _ _ _ _ _ _ hnd.1]
        exact rowFold_mem _ _ _ _ _ _ _ _ (List.nodup_range _)
          (List.mem_range.mpr hx)
      · exact ih hnd.2 hmem2 _
  exact hgen (List.range g.height.toNat) (List.nodup_range _)
    (List.mem_range.mpr hy) s

/-- Claim C1 (code behaviour at the failing configuration): the frame
`render` returns is entirely independent of the arc list — the
density-to-character pass (lines 2589-2603) assigns every cell from the
density grid and attack layer alone, overwriting every cell the arc
pass had drawn, so an arc cell never survives into the final grid. -/
theorem claim_C1 (g : Globe) (rotation : ℝ)
    (attackLocations : List (String × LocationInfo)) (arcs : List AttackArc)
    (arcStyle : String) (protocolGlyphs : Bool) (protocolForIP : String → String)
    (nowMs : ℤ) :
    render g rotation attackLocations arcs arcStyle protocolGlyphs protocolForIP nowMs =
      render g rotation attackLocations [] arcStyle protocolGlyphs protocolForIP
        nowMs := by
  rw [render, render]
  by_cases hg : g.width ≤ 0 ∨ g.height ≤ 0
  · rw [if_pos hg, if_pos hg]
  · rw [if_neg hg, if_neg hg]
    dsimp only
    rw [materialize, materialize]
    refine List.map_congr_left fun y hy => ?_
    refine List.map_congr_left fun x hx => ?_
    rw [finalPass_at g _ _ _ _ _ y x (List.mem_range.mp hy) (List.mem_range.mp hx),
      finalPass_at g _ _ _ _ _ y x (List.mem_range.mp hy) (List.mem_range.mp hx)]


lemma goAtan2_scale (a b c : ℝ) (hc : 0 < c) : goAtan2 (c * a) (c * b) = goAtan2 a b := by
  have hdiv : c * a / (c * b) = a / b := mul_div_mul_left a b hc.ne'
  rw [goAtan2, goAtan2, hdiv]
  rcases lt_trichotomy b 0 with hb | hb | hb
  · have h1 : ¬ (0 < c * b) := by nlinarith
    have h2 : c * b < 0 := mul_neg_of_pos_of_neg hc hb
    rw [if_neg h1, if_pos h2, if_neg (show ¬(0 < b) by linarith), if_pos hb]
    rcases le_or_lt 0 a with ha | ha
    · rw [if_pos (show 0 ≤ c * a by positivity), if_pos ha]
    · rw [if_neg (show ¬(0 ≤ c * a) by nlinarith),
        if_neg (show ¬(0 ≤ a) by linarith)]
  · subst hb
    rw [mul_zero]
    rw [if_neg (lt_irrefl 0), if_neg (lt_irrefl 0), if_neg (lt_irrefl 0),
      if_neg (lt_irrefl 0)]
    rcases lt_trichotomy a 0 with ha | ha | ha
    · rw [if_neg (show ¬(0 < c * a) by nlinarith), if_neg (show ¬(0 < a) by linarith),
        if_pos (mul_neg_of_pos_of_neg hc ha), if_pos ha]
    · subst ha
      rw [mul_zero]
    · rw [if_pos (show 0 < c * a by positivity), if_pos ha]
  · rw [if_pos (show 0 < c * b by positivity), if_pos hb]

lemma goAtan2_cos_sin (θ : ℝ) (h : 0 ≤ sin θ) :
    ∃ m : ℤ, goAtan2 (cos θ) (sin θ) = π / 2 - θ + 2 * π * m := by
  have h2pi : 0 < 2 * π := by positivity
  have hπ := Real.pi_pos
  set n : ℤ := ⌊θ / (2 * π)⌋ with hn
  set θ2 : ℝ := θ - n * (2 * π) with hθ2def
  have hθeq : θ = θ2 + n * (2 * π) := by rw [hθ2def]; ring
  have hθ2a : 0 ≤ θ2 := by
    have h1 : (n : ℝ) ≤ θ / (2 * π) := Int.floor_le _
    have h2 : (n : ℝ) * (2 * π) ≤ θ := by
      calc (n : ℝ) * (2 * π) ≤ θ / (2 * π) * (2 * π) :=
            mul_le_mul_of_nonneg_right h1 h2pi.le
        _ = θ := by field_simp
    rw [hθ2def]; linarith
  have hθ2b : θ2 < 2 * π := by
    have h1 : θ / (2 * π) < n + 1 := Int.lt_floor_add_one _
    have h2 : θ < ((n : ℝ) + 1) * (2 * π) := by
      calc θ = θ / (2 * π) * (2 * π) := by field_simp
        _ < ((n : ℝ) + 1) * (2 * π) := mul_lt_mul_of_pos_right h1 h2pi
    rw [hθ2def]; nlinarith
  have hsin : sin θ = sin θ2 := by
    rw [hθeq, Real.sin_add_int_mul_two_pi]
  have hcos : cos θ = cos θ2 := by
    rw [hθeq, Real.cos_add_int_mul_two_pi]
  have hs2 : 0 ≤ sin θ2 := hsin ▸ h
  by_cases hpos : 0 < sin θ2
  · have hgt : 0 < θ2 := by
      rcases eq_or_lt_of_le hθ2a with he | hl
      · exfalso
        rw [← he, Real.sin_zero] at hpos
        exact lt_irrefl 0 hpos
      · exact hl
    have hlt : θ2 < π := by
      by_contra hge
      push_neg at hge
      have h3 : sin (θ2 - π) = -sin θ2 := Real.sin_sub_pi θ2
      have h4 : 0 ≤ sin (θ2 - π) :=
        Real.sin_nonneg_of_nonneg_of_le_pi (by linarith) (by linarith)
      linarith
    refine ⟨n, ?_⟩
    rw [goAtan2, if_pos (by rw [hsin]; exact hpos)]
    have htan : cos θ / sin θ = tan (π / 2 - θ2) := by
      rw [Real.tan_eq_sin_div_cos, Real.sin_pi_div_two_sub, Real.cos_pi_div_two_sub,
        hcos, hsin]
    rw [htan, Real.arctan_tan (by linarith) (by linarith)]
    rw [hθeq]; ring
  · have hzero : sin θ2 = 0 := le_antisymm (not_lt.mp hpos) hs2
    rcases Real.sin_eq_zero_iff.mp hzero with ⟨k, hk⟩
    have hk01 : k = 0 ∨ k = 1 := by
      have hkr : (k : ℝ) * π = θ2 := hk
      by_contra hne
      push_neg at hne
      rcases lt_trichotomy k 0 with hlt | heq | hgt
      · have hk1 : k ≤ -1 := by omega
        have : (k : ℝ) ≤ -1 := by exact_mod_cast hk1
        nlinarith
      · exact hne.1 heq
      · have hk2 : 2 ≤ k := by omega
        have : (2 : ℝ) ≤ (k : ℝ) := by exact_mod_cast hk2
        nlinarith
    rcases hk01 with hk0 | hk1
    · have hθ20 : θ2 = 0 := by rw [← hk, hk0]; simp
      have hcosθ : cos θ = 1 := by rw [hcos, hθ20, Real.cos_zero]
      have hsinθ : sin θ = 0 := by rw [hsin, hθ20, Real.sin_zero]
      refine ⟨n, ?_⟩
      rw [goAtan2, hsinθ, hcosθ]
      rw [if_neg (lt_irrefl 0), if_neg (lt_irrefl 0), if_pos one_pos]
      rw [hθeq, hθ20]; ring
    · have hθ2pi : θ2 = π := by rw [← hk, hk1]; simp
      have hcosθ : cos θ = -1 := by rw [hcos, hθ2pi, Real.cos_pi]
      have hsinθ : sin θ = 0 := by rw [hsin, hθ2pi, Real.sin_pi]
      refine ⟨n, ?_⟩
      rw [goAtan2, hsinθ, hcosθ]
      rw [if_neg (lt_irrefl 0), if_neg (lt_irrefl 0),
        if_neg (by norm_num), if_pos (by norm_num)]
      rw [hθeq, hθ2pi]; ring

lemma wrapLow_spec (x : ℝ) : (∃ j : ℤ, wrapLow x = x + 360 * j) ∧ -180 ≤ wrapLow x := by
  have H : ∀ N : ℕ, ∀ x : ℝ, (⌈(-180 - x) / 360⌉).toNat ≤ N →
      (∃ j : ℤ, wrapLow x = x + 360 * j) ∧ -180 ≤ wrapLow x := by
    intro N
    induction N with
    | zero =>
      intro x hx
      have hnl : ¬ x < -180 := by
        intro h
        have h1 : (0:ℝ) < -180 - x := by linarith
        have h2 : 0 < ⌈(-180 - x) / 360⌉ := by rw [Int.ceil_pos]; positivity
        omega
      rw [wrapLow, dif_neg hnl]
      exact ⟨⟨0, by push_cast; ring⟩, not_lt.mp hnl⟩
    | succ N ih =>
      intro x hx
      by_cases h : x < -180
      · rw [wrapLow, dif_pos h]
        have h2 : ⌈(-180 - (x + 360)) / 360⌉ = ⌈(-180 - x) / 360⌉ - 1 := by
          have he : (-180 - (x + 360)) / 360 = (-180 - x) / 360 - 1 := by ring
          rw [he, Int.ceil_sub_one]
        have h3 : 0 < ⌈(-180 - x) / 360⌉ := by
          rw [Int.ceil_pos]
          have : (0:ℝ) < -180 - x := by linarith
          positivity
        have hm : (⌈(-180 - (x + 360)) / 360⌉).toNat ≤ N := by omega
        obtain ⟨⟨j, hj⟩, hb⟩ := ih (x + 360) hm
        exact ⟨⟨j + 1, by rw [hj]; push_cast; ring⟩, hb⟩
      · rw [wrapLow, dif_neg h]
        exact ⟨⟨0, by push_cast; ring⟩, not_lt.mp h⟩
  exact H (⌈(-180 - x) / 360⌉).toNat x le_rfl

lemma wrapHigh_spec (x : ℝ) : (∃ j : ℤ, wrapHigh x = x + 360 * j) ∧ wrapHigh x ≤ 180 := by
  have H : ∀ N : ℕ, ∀ x : ℝ, (⌈(x - 180) / 360⌉).toNat ≤ N →
      (∃ j : ℤ, wrapHigh x = x + 360 * j) ∧ wrapHigh x ≤ 180 := by
    intro N
    induction N with
    | zero =>
      intro x hx
      have hnl : ¬ 180 < x := by
        intro h
        have h1 : (0:ℝ) < x - 180 := by linarith
        have h2 : 0 < ⌈(x - 180) / 360⌉ := by rw [Int.ceil_pos]; positivity
        omega
      rw [wrapHigh, dif_neg hnl]
      exact ⟨⟨0, by push_cast; ring⟩, not_lt.mp hnl⟩
    | succ N ih =>
      intro x hx
      by_cases h : 180 < x
      · rw [wrapHigh, dif_pos h]
        have h2 : ⌈(x - 360 - 180) / 360⌉ = ⌈(x - 180) / 360⌉ - 1 := by
          have he : (x - 360 - 180) / 360 = (x - 180) / 360 - 1 := by ring
          rw [he, Int.ceil_sub_one]
        have h3 : 0 < ⌈(x - 180) / 360⌉ := by
          rw [Int.ceil_pos]
          have : (0:ℝ) < x - 180 := by linarith
          positivity
        have hm : (⌈(x - 360 - 180) / 360⌉).toNat ≤ N := by omega
        obtain ⟨⟨j, hj⟩, hb⟩ := ih (x - 360) hm
        exact ⟨⟨j - 1, by rw [hj]; push_cast; ring⟩, hb⟩
      · rw [wrapHigh, dif_neg h]
        exact ⟨⟨0, by push_cast; ring⟩, not_lt.mp h⟩
  exact H (⌈(x - 180) / 360⌉).toNat x le_rfl

lemma wrapHigh_lower (x : ℝ) (h : -180 ≤ x) : -180 ≤ wrapHigh x := by
  have H : ∀ N : ℕ, ∀ x : ℝ, (⌈(x - 180) / 360⌉).toNat ≤ N → -180 ≤ x →
      -180 ≤ wrapHigh x := by
    intro N
    induction N with
    | zero =>
      intro x hx hxl
      have hnl : ¬ 180 < x := by
        intro h2
        have h3 : 0 < ⌈(x - 180) / 360⌉ := by
          rw [Int.ceil_pos]
          have : (0:ℝ) < x - 180 := by linarith
          positivity
        omega
      rw [wrapHigh, dif_neg hnl]
      exact hxl
    | succ N ih =>
      intro x hx hxl
      by_cases h2 : 180 < x
      · rw [wrapHigh, dif_pos h2]
        have h3 : ⌈(x - 360 - 180) / 360⌉ = ⌈(x - 180) / 360⌉ - 1 := by
          have he : (x - 360 - 180) / 360 = (x - 180) / 360 - 1 := by ring
          rw [he, Int.ceil_sub_one]
        have h4 : 0 < ⌈(x - 180) / 360⌉ := by
          rw [Int.ceil_pos]
          have : (0:ℝ) < x - 180 := by linarith
          positivity
        have hm : (⌈(x - 360 - 180) / 360⌉).toNat ≤ N := by omega
        exact ih (x - 360) hm (by linarith)
      · rw [wrapHigh, dif_neg h2]
        exact hxl
  exact H (⌈(x - 180) / 360⌉).toNat x le_rfl h

lemma lonWrap_spec (x : ℝ) :
    (∃ j : ℤ, lonWrap x = x + 360 * j) ∧ -180 ≤ lonWrap x ∧ lonWrap x ≤ 180 := by
  obtain ⟨⟨j1, hj1⟩, hlow⟩ := wrapLow_spec x
  obtain ⟨⟨j2, hj2⟩, hhigh⟩ := wrapHigh_spec (wrapLow x)
  refine ⟨⟨j1 + j2, ?_⟩, ?_, ?_⟩
  · rw [lonWrap, hj2, hj1]; push_cast; ring
  · rw [lonWrap]; exact wrapHigh_lower _ hlow
  · rw [lonWrap]; exact hhigh

lemma adjustedLonOf_spec (lon : ℝ) (h2 : lon < 180) :
    ∃ f : ℤ, adjustedLonOf lon = 90 - lon - 360 * f := by
  rw [adjustedLonOf, goMod, goTrunc,
    if_pos (show (0:ℝ) ≤ ((-lon + 90) + 180) / 360 by
      apply div_nonneg _ (by norm_num)
      linarith)]
  exact ⟨⌊((-lon + 90) + 180) / 360⌋, by ring⟩

lemma sph_unit (lat lon rotation : ℝ) :
    sphX lat lon rotation ^ 2 + sphY lat ^ 2 + depthZ lat lon rotation ^ 2 = 1 := by
  rw [sphX, sphY, depthZ]
  have h1 := sin_sq_add_cos_sq (latRadOf lat)
  have h2 := sin_sq_add_cos_sq (lonRadOf lon rotation)
  linear_combination (cos (latRadOf lat)) ^ 2 * h2 + h1


set_option maxHeartbeats 1000000 in
/-- Claim C2 (amended): for a visible point (view depth ≥ 0) away from
the poles and the antimeridian, inverse-projecting the exact
(pre-truncation) forward screen position in the density pass recovers
the **negated** latitude `-lat` exactly, and the original longitude
exactly — not the original latitude as claimed. -/
theorem claim_C2 (g : Globe) (lat lon rotation : ℝ)
    (hlat1 : -90 < lat) (hlat2 : lat < 90) (hlon1 : -180 < lon) (hlon2 : lon < 180)
    (hR : 0 < g.radius * g.zoom) (hA : 0 < g.aspect)
    (hz : 0 ≤ depthZ lat lon rotation) :
    densityPassInverseR g rotation (projectXReal g lat lon rotation)
        (projectYReal g lat lon rotation) = some (-lat, lon) := by
  have hπ := Real.pi_pos
  have hdx : cellDX g (projectXReal g lat lon rotation) =
      sphX lat lon rotation * (g.radius * g.zoom) := by
    rw [cellDX, projectXReal, centerX]
    ring
  have hdy : cellDY g (projectYReal g lat lon rotation) =
      -(sphY lat) * (g.radius * g.zoom) := by
    rw [cellDY, projectYReal, centerY]
    field_simp
    ring
  have hunit := sph_unit lat lon rotation
  have hdist : cellDistance g (projectXReal g lat lon rotation)
      (projectYReal g lat lon rotation) =
      (g.radius * g.zoom) * Real.sqrt (sphX lat lon rotation ^ 2 + sphY lat ^ 2) := by
    rw [cellDistance, hdx, hdy]
    have he : sphX lat lon rotation * (g.radius * g.zoom) *
        (sphX lat lon rotation * (g.radius * g.zoom)) +
        -(sphY lat) * (g.radius * g.zoom) * (-(sphY lat) * (g.radius * g.zoom)) =
        (g.radius * g.zoom) ^ 2 * (sphX lat lon rotation ^ 2 + sphY lat ^ 2) := by
      ring
    rw [he, Real.sqrt_mul (sq_nonneg _), Real.sqrt_sq hR.le]
  have hsle : Real.sqrt (sphX lat lon rotation ^ 2 + sphY lat ^ 2) ≤ 1 :=
    Real.sqrt_le_one.mpr (by nlinarith [sq_nonneg (depthZ lat lon rotation)])
  have hdistle : cellDistance g (projectXReal g lat lon rotation)
      (projectYReal g lat lon rotation) ≤ g.radius * g.zoom := by
    rw [hdist]
    nlinarith [Real.sqrt_nonneg (sphX lat lon rotation ^ 2 + sphY lat ^ 2)]
  rw [densityPassInverseR]
  dsimp only
  rw [if_pos hdistle, hdx, hdy]
  have hxx : sphX lat lon rotation * (g.radius * g.zoom) / (g.radius * g.zoom) =
      sphX lat lon rotation := by
    field_simp
  have hyy : -(sphY lat) * (g.radius * g.zoom) / (g.radius * g.zoom) = -(sphY lat) := by
    field_simp
  rw [hxx, hyy]
  have hnzsq : 1 - sphX lat lon rotation * sphX lat lon rotation -
      -(sphY lat) * -(sphY lat) = depthZ lat lon rotation ^ 2 := by
    nlinarith [hunit]
  rw [hnzsq, if_pos (sq_nonneg (depthZ lat lon rotation)), Real.sqrt_sq hz]
  rw [Option.some.injEq, Prod.mk.injEq]
  constructor
  · have hb1 : -(π / 2) ≤ latRadOf lat := by rw [latRadOf]; nlinarith
    have hb2 : latRadOf lat ≤ π / 2 := by rw [latRadOf]; nlinarith
    rw [sphY, Real.arcsin_neg, Real.arcsin_sin hb1 hb2, latRadOf]
    field_simp
    ring
  · have hc : 0 < cos (latRadOf lat) := by
      refine Real.cos_pos_of_mem_Ioo ⟨?_, ?_⟩ <;> rw [latRadOf] <;> nlinarith
    have hsinθ : 0 ≤ sin (lonRadOf lon rotation) := by
      rw [depthZ] at hz
      nlinarith
    obtain ⟨m, hm⟩ := goAtan2_cos_sin (lonRadOf lon rotation) hsinθ
    rw [sphX, depthZ, goAtan2_scale _ _ _ hc, hm]
    obtain ⟨f, hf⟩ := adjustedLonOf_spec lon hlon2
    have harg : (π / 2 - lonRadOf lon rotation + 2 * π * m) * 180 / π +
        rotation * 180 / π = lon + 360 * ((f : ℝ) + (m : ℝ)) := by
      rw [lonRadOf, hf]
      field_simp
      ring
    rw [harg]
    obtain ⟨⟨j, hj⟩, hge, hle⟩ := lonWrap_spec (lon + 360 * ((f : ℝ) + (m : ℝ)))
    rw [hj] at hge hle ⊢
    have hK : f + m + j = 0 := by
      by_contra hne
      rcases lt_or_gt_of_ne hne with hlt | hgt
      · have h1 : f + m + j ≤ -1 := by omega
        have h2 : ((f + m + j : ℤ) : ℝ) ≤ -1 := by exact_mod_cast h1
        push_cast at h2
        linarith
      · have h1 : 1 ≤ f + m + j := by omega
        have h2 : (1 : ℝ) ≤ ((f + m + j : ℤ) : ℝ) := by exact_mod_cast h1
        push_cast at h2
        linarith
    have hKr : (f : ℝ) + (m : ℝ) + (j : ℝ) = 0 := by exact_mod_cast hK
    linarith


lemma adjustedLonOf_0 : adjustedLonOf 0 = 90 := by
  rw [adjustedLonOf, goMod, goTrunc]
  norm_num

lemma lonRadOf_0_0 : lonRadOf 0 0 = π / 2 := by
  rw [lonRadOf, adjustedLonOf_0]
  ring

lemma latRadOf_90 : latRadOf 90 = π / 2 := by rw [latRadOf]; ring

lemma depthZ_90_0_0 : depthZ 90 0 0 = 0 := by
  rw [depthZ, latRadOf_90, lonRadOf_0_0, Real.cos_pi_div_two]
  ring

lemma sphX_90_0_0 : sphX 90 0 0 = 0 := by
  rw [sphX, latRadOf_90, lonRadOf_0_0, Real.cos_pi_div_two]
  ring

lemma sphY_90 : sphY 90 = 1 := by rw [sphY, latRadOf_90, Real.sin_pi_div_two]

lemma screenXOf_90 : screenXOf testGlobe 90 0 0 = 20 := by
  rw [screenXOf, sphX_90_0_0]
  have h0 : (0 : ℝ) * (testGlobe.radius * testGlobe.zoom) + testGlobe.nudgeX = 0 := by
    norm_num [testGlobe]
  rw [h0, goTrunc, if_pos le_rfl]
  norm_num [testGlobe, tdiv_40_2]

lemma screenYOf_90 : screenYOf testGlobe 90 = 2 := by
  rw [screenYOf, sphY_90]
  have h0 : -(1 : ℝ) * (testGlobe.radius * testGlobe.zoom) / testGlobe.aspect +
      testGlobe.nudgeY = -8 := by
    norm_num [testGlobe]
  rw [h0, goTrunc, if_neg (by norm_num)]
  have hc : ⌈(-8 : ℝ)⌉ = -8 := by
    rw [show ((-8) : ℝ) = ((-8 : ℤ) : ℝ) by norm_num, Int.ceil_intCast]
  rw [hc]
  norm_num [testGlobe, tdiv_20_2]

lemma project_90_0_0 : project3DTo2D testGlobe 90 0 0 = (20, 2, true) := by
  rw [project3DTo2D, if_neg (show ¬(depthZ 90 0 0 < 0) from by
    rw [depthZ_90_0_0]; norm_num)]
  rw [screenXOf_90, screenYOf_90]
  rw [if_neg (by decide)]

lemma cellDY_2 : cellDY testGlobe 2 = -16 := by
  rw [cellDY, centerY]
  simp [testGlobe, tdiv_20_2]
  norm_num

lemma cellDistance_20_2 : cellDistance testGlobe 20 2 = 16 := by
  rw [cellDistance, cellDX_20, cellDY_2]
  rw [show (0 : ℝ) * 0 + -16 * -16 = 16 ^ 2 by norm_num, Real.sqrt_sq (by norm_num)]

lemma goAtan2_0_0 : goAtan2 0 0 = 0 := by
  rw [goAtan2, if_neg (lt_irrefl 0), if_neg (lt_irrefl 0), if_neg (lt_irrefl 0),
    if_neg (lt_irrefl 0)]

lemma lonWrap_0 : lonWrap (0 : ℝ) = 0 := by
  rw [lonWrap, wrapLow, dif_neg (by norm_num), wrapHigh, dif_neg (by norm_num)]

lemma inverse_20_2 : densityPassInverseR testGlobe 0 20 2 = some (-90, 0) := by
  rw [densityPassInverseR]
  dsimp only
  rw [cellDistance_20_2, testGlobe_effR, if_pos le_rfl, cellDX_20, cellDY_2]
  have h1 : (0 : ℝ) / 16 = 0 := by norm_num
  have h2 : (-16 : ℝ) / 16 = -1 := by norm_num
  rw [h1, h2]
  have h3 : (1 : ℝ) - 0 * 0 - -1 * -1 = 0 := by norm_num
  rw [h3, if_pos le_rfl, Real.sqrt_zero, goAtan2_0_0]
  have h4 : Real.arcsin (-1) * 180 / π = -90 := by
    rw [Real.arcsin_neg_one]
    field_simp
    ring
  have h5 : (0 : ℝ) * 180 / π = 0 := by norm_num
  rw [h4, h5, zero_add, lonWrap_0]

/-- Counterexample for C2: on `testGlobe` the point (lat 90, lon 0) at
rotation 0 is reported visible at screen cell (20, 2), but the density
pass computes latitude -90 for that cell — 180 degrees (60 raster
cells) away from the original latitude, far beyond the one-raster-cell
(3 degrees) tolerance. -/
theorem claim_C2_counterexample :
    project3DTo2D testGlobe 90 0 0 = (20, 2, true) ∧
      densityPassInverseR testGlobe 0 20 2 = some (-90, 0) ∧
      ¬(|(-90 : ℝ) - 90| ≤ 3) := by
  refine ⟨project_90_0_0, inverse_20_2, ?_⟩
  rw [show ((-90 : ℝ) - 90) = -180 by norm_num, abs_neg, abs_of_nonneg (by norm_num)]
  norm_num

lemma depthZ_30_90_0 : depthZ 30 90 0 = 0 := by
  rw [depthZ, lonRadOf_90_0, Real.sin_zero]
  ring

/-- Witness for the amended C2 at (lat 30, lon 90, rotation 0) on
`testGlobe`: the exact round trip returns (-30, 90). -/
theorem claim_C2_witness :
    densityPassInverseR testGlobe 0 (projectXReal testGlobe 30 90 0)
        (projectYReal testGlobe 30 90 0) = some (-30, 90) :=
  claim_C2 testGlobe 30 90 0 (by norm_num) (by norm_num) (by norm_num) (by norm_num)
    (by rw [testGlobe_effR]; norm_num) (by norm_num [testGlobe])
    (by rw [depthZ_30_90_0])

end MHNGlobe
